import Mathlib

/-!
Verification of the synthesis → verification → execution pipeline of the
pdca-crewai repository, shallowly embedded in Lean 4.

Embedded source files:
* `src/tools/dynamic_tool_creator/dynamic_tool_creator.py`
  (`ToolASTBuilder`, `DynamicToolCreator._run`, `verificar_metodos_vazios`)
* `src/tools/verificador/tool_verifier.py`
  (`_ToolAnalysisResult`, `ToolVerifierTool.run` and its stage helpers)
* `src/tools/dinamicas/executar_ferramenta_tool.py`
  (`ExecutarFerramentaTool._run`)

Python strings are modelled as Lean `String` (their `.data` underlying char
list is used for substring reasoning).  Python runtime effects (file system,
`sys.path`, dynamic import, instantiation) are modelled as explicit state and
oracle parameters, translated branch by branch from the source.
-/

set_option autoImplicit false

namespace Pdca

/-! ## String utilities mirroring the Python primitives used by the code -/

/-- Boolean prefix test on char lists (Python `str.startswith`). -/
def startB : List Char → List Char → Bool
  | [], _ => true
  | _ :: _, [] => false
  | a :: as, b :: bs => a = b && startB as bs

/-- Boolean contiguous-sublist test on char lists (Python `needle in hay`). -/
def subB (n : List Char) : List Char → Bool
  | [] => n.isEmpty
  | c :: rest => startB n (c :: rest) || subB n rest

/-- Python `needle in hay` on strings. -/
def strHas (hay needle : String) : Bool := subB needle.data hay.data

/-- Python `s.startswith(p)` on strings. -/
def strStarts (s p : String) : Bool := startB p.data s.data

/-- Python `s.endswith(p)` on strings. -/
def strEnds (s p : String) : Bool := startB p.data.reverse s.data.reverse

/-- Python `sep.join(parts)`. -/
def pyJoin (sep : String) : List String → String
  | [] => ""
  | [a] => a
  | a :: b :: rest => a ++ sep ++ pyJoin sep (b :: rest)

/-- Python `s.lower()` (ASCII view, which covers every name the code builds). -/
def pyLower (s : String) : String := String.mk (s.data.map Char.toLower)

/-- Python `s.replace(" ", "")` on the underlying char list. -/
def dropSpaces : List Char → List Char
  | [] => []
  | c :: t => if c = ' ' then dropSpaces t else c :: dropSpaces t

/-- Python `s.replace(" ", "_")` on the underlying char list. -/
def mapUnderscore : List Char → List Char
  | [] => []
  | c :: t => (if c = ' ' then '_' else c) :: mapUnderscore t

/-- Python `s.replace(" ", "")`. -/
def noSpaces (s : String) : String := String.mk (dropSpaces s.data)

/-- Python `s.replace(" ", "_")`. -/
def underscoreSpaces (s : String) : String := String.mk (mapUnderscore s.data)

/-- Whitespace characters removed by Python `str.strip`. -/
def isPySpace (c : Char) : Bool := c = ' ' || c = '\t' || c = '\n' || c = '\x0d'

/-- Python `s.strip()`. -/
def pyStrip (s : String) : String :=
  String.mk (((s.data.dropWhile isPySpace).reverse.dropWhile isPySpace).reverse)

/-- Python `len(s)`. -/
def pyLen (s : String) : Nat := s.data.length

/-- Python `s[:n]`. -/
def pyTake (s : String) (n : Nat) : String := String.mk (s.data.take n)

/-! ### Substring lemmas -/

theorem startB_refl (l : List Char) : startB l l = true := by
  induction l with
  | nil => rfl
  | cons a t ih => simp [startB, ih]

theorem startB_append (n a b : List Char) (h : startB n a = true) :
    startB n (a ++ b) = true := by
  induction n generalizing a with
  | nil => rfl
  | cons c t ih =>
    cases a with
    | nil => simp [startB] at h
    | cons x xs =>
      simp only [startB, Bool.and_eq_true, decide_eq_true_eq] at h
      simp [startB, h.1, ih xs h.2]

theorem startB_self_append (l b : List Char) : startB l (l ++ b) = true :=
  startB_append l l b (startB_refl l)

theorem subB_of_startB (n h : List Char) (hp : startB n h = true) : subB n h = true := by
  cases h with
  | nil => cases n with
    | nil => rfl
    | cons c t => simp [startB] at hp
  | cons c rest => simp [subB, hp]

theorem subB_append_right (n a b : List Char) (h : subB n b = true) :
    subB n (a ++ b) = true := by
  induction a with
  | nil => simpa using h
  | cons c t ih => simp [subB, ih]

theorem subB_append_left (n a b : List Char) (h : subB n a = true) :
    subB n (a ++ b) = true := by
  induction a with
  | nil =>
    simp only [subB, List.isEmpty_iff] at h
    subst h
    cases b with
    | nil => rfl
    | cons c rest => exact subB_of_startB [] _ rfl
  | cons c t ih =>
    simp only [subB, Bool.or_eq_true] at h
    rcases h with h | h
    · exact Bool.or_eq_true _ _ |>.mpr (Or.inl (startB_append n (c :: t) b h))
    · simp only [List.cons_append, subB, Bool.or_eq_true]
      exact Or.inr (ih h)

theorem subB_refl (l : List Char) : subB l l = true :=
  subB_of_startB l l (startB_refl l)

/-- A string is a substring of any concatenation having it as the middle part. -/
theorem strHas_middle (a n b : String) : strHas (a ++ n ++ b) n = true := by
  cases a with
  | mk da =>
    cases n with
    | mk dn =>
      cases b with
      | mk db =>
        show subB dn ((da ++ dn) ++ db) = true
        exact subB_append_left dn (da ++ dn) db (subB_append_right dn da dn (subB_refl dn))

/-- Each element of a joined list is a substring of the join. -/
theorem strHas_pyJoin (sep : String) (l : List String) (x : String) (hx : x ∈ l) :
    strHas (pyJoin sep l) x = true := by
  induction l with
  | nil => cases hx
  | cons a rest ih =>
    cases rest with
    | nil =>
      rcases List.mem_singleton.mp hx with rfl
      show subB x.data x.data = true
      exact subB_refl x.data
    | cons b rs =>
      rcases List.mem_cons.mp hx with rfl | hx'
      · show subB x.data ((x ++ sep ++ pyJoin sep (b :: rs)).data) = true
        cases x with
        | mk dx =>
          show subB dx ((dx ++ sep.data) ++ (pyJoin sep (b :: rs)).data) = true
          exact subB_append_left dx _ _ (subB_append_left dx _ _ (subB_refl dx))
      · have h := ih hx'
        show subB x.data ((a ++ sep ++ pyJoin sep (b :: rs)).data) = true
        exact subB_append_right x.data _ _ h

theorem strHas_append_right (a b n : String) (h : strHas b n = true) :
    strHas (a ++ b) n = true := by
  cases a with
  | mk da => cases b with
    | mk db => exact subB_append_right n.data da db h

theorem strHas_append_left (a b n : String) (h : strHas a n = true) :
    strHas (a ++ b) n = true := by
  cases a with
  | mk da => cases b with
    | mk db => exact subB_append_left n.data da db h

/-- `startB` only looks at the first `|n|` characters. -/
theorem startB_append_of_le (n b a : List Char) (h : n.length ≤ b.length) :
    startB n (b ++ a) = startB n b := by
  induction n generalizing b with
  | nil => rfl
  | cons c t ih =>
    cases b with
    | nil => simp at h
    | cons x xs =>
      simp only [List.length_cons, Nat.succ_le_succ_iff] at h
      show (decide (c = x) && startB t (xs ++ a)) = (decide (c = x) && startB t xs)
      rw [ih xs h]

/-- `endswith` through a left append when the suffix fits in the right part. -/
theorem strEnds_append (a b p : String) (h : p.data.length ≤ b.data.length) :
    strEnds (a ++ b) p = strEnds b p := by
  cases a with
  | mk da => cases b with
    | mk db =>
      show startB p.data.reverse (da ++ db).reverse = startB p.data.reverse db.reverse
      rw [List.reverse_append]
      exact startB_append_of_le _ _ _ (by simpa using h)

theorem strEnds_self_append (a p : String) : strEnds (a ++ p) p = true := by
  cases a with
  | mk da => cases p with
    | mk dp =>
      show startB dp.reverse (da ++ dp).reverse = true
      rw [List.reverse_append]
      exact startB_self_append dp.reverse da.reverse

/-! ## Data model

A small value/expression/statement universe mirroring the `ast` node shapes the
embedded code actually builds or inspects. -/

/-- Python scalar values as they occur in `ToolParameter.default` and
`ast.Constant` nodes built by the code.  `int` and `float` are distinct
constructors because Python `0` and `0.0` are values of distinct types. -/
inductive PyVal where
  | none
  | bool (b : Bool)
  | int (n : Int)
  | float (n : Int)
  | str (s : String)
  deriving DecidableEq, Repr

/-- The default-value expressions built by `ToolASTBuilder` (lines 296-312 and
499-510 of dynamic_tool_creator.py): `ast.Constant(value=...)`,
`ast.List(elts=[], ...)` and `ast.Dict(keys=[], values=[])`.  The list/dict
nodes are built only with empty contents there. -/
inductive PyExpr where
  | constant (v : PyVal)
  | emptyList
  | emptyDict
  deriving DecidableEq, Repr

/-- Statement shapes, at the granularity the embedded code distinguishes:
`verificar_metodos_vazios` looks for `FunctionDef` bodies equal to `[Pass]`,
and the verifier walks for `ClassDef`/`FunctionDef` nodes.  `importStar`
stands for `from <m> import *`, which parses at module level but is a
`SyntaxError` inside a `def` body.  `ret` is a `Return` node. -/
inductive PyStmt where
  | importStmt (text : String)
  | importStar (modName : String)
  | assign (target : String)
  | annAssign (target : String)
  | exprStmt
  | passStmt
  | funcDef (name : String) (body : List PyStmt)
  | classDef (name : String) (bases : List String) (body : List PyStmt)
  | ifStmt (body orelse : List PyStmt)
  | ret
  | other

/-- Outcome of `ast.parse` on a source fragment: either the parsed statement
list or a `SyntaxError` with its `lineno`, `offset` and `msg`. -/
inductive ParseOutcome where
  | parsed (stmts : List PyStmt)
  | syntaxError (lineno offset : Nat) (msg : String)

/-- A caller-supplied source fragment together with what `ast.parse` does on
it.  `lines` is the fragment text split on newlines (for the implementation
fragment the code first applies `.strip()`; a `Fragment` models the stripped
text). -/
structure Fragment where
  lines : List String
  outcome : ParseOutcome

/-- One entry of `ToolDefinition.parameters` after the dict → `ToolParameter`
conversion (dynamic_tool_creator.py lines 70-91).  `default = Option.none`
models Python `default=None` (the code tests `param.default is not None`). -/
structure ToolParameter where
  name : String
  type : String
  description : String
  required : Bool
  default : Option PyVal
  deriving DecidableEq, Repr

/-! ## C8: derived artifact paths (DynamicToolCreator._run lines 745-752) -/

/-- Line 746: `tool_dir_name = name.lower().replace(" ", "") + "_tool"`,
without the `_tool` suffix. -/
def tool_dir_stem (name : String) : String := noSpaces (pyLower name)

/-- Line 746, full directory name. -/
def tool_dir_name (name : String) : String := tool_dir_stem name ++ "_tool"

/-- Line 752: `tool_file_name = name.lower().replace(" ", "_") + "_tool.py"`,
without the `_tool.py` suffix. -/
def tool_file_stem (name : String) : String := underscoreSpaces (pyLower name)

/-- Line 752, full file name. -/
def tool_file_name (name : String) : String := tool_file_stem name ++ "_tool.py"

/-- Line 749: `tools_dir = Path(f"crews/pdca/tools/:tool_dir_name")`. -/
def tools_dir_path (name : String) : String := "crews/pdca/tools/" ++ tool_dir_name name

/-- Line 815: `tool_file_path = tools_dir / tool_file_name`. -/
def tool_file_path (name : String) : String :=
  tools_dir_path name ++ "/" ++ tool_file_name name

theorem dropSpaces_length_le (l : List Char) : (dropSpaces l).length ≤ l.length := by
  induction l with
  | nil => exact Nat.le_refl _
  | cons a t ih =>
    by_cases ha : a = ' '
    · simp only [dropSpaces, if_pos ha, List.length_cons]
      omega
    · simp only [dropSpaces, if_neg ha, List.length_cons]
      omega

theorem mapUnderscore_length (l : List Char) : (mapUnderscore l).length = l.length := by
  induction l with
  | nil => rfl
  | cons a t ih => simp only [mapUnderscore, List.length_cons, ih]

theorem dropSpaces_eq_mapUnderscore_iff (l : List Char) :
    (dropSpaces l = mapUnderscore l) ↔ ' ' ∉ l := by
  induction l with
  | nil => simp [dropSpaces, mapUnderscore]
  | cons a t ih =>
    by_cases ha : a = ' '
    · subst ha
      have hd : dropSpaces (' ' :: t) = dropSpaces t := by simp [dropSpaces]
      have hm : mapUnderscore (' ' :: t) = '_' :: mapUnderscore t := by simp [mapUnderscore]
      rw [hd, hm]
      constructor
      · intro h
        exfalso
        have hlen := congrArg List.length h
        rw [List.length_cons, mapUnderscore_length] at hlen
        have hle := dropSpaces_length_le t
        omega
      · intro h
        exact absurd (List.mem_cons_self _ _) h
    · have hd : dropSpaces (a :: t) = a :: dropSpaces t := by simp [dropSpaces, ha]
      have hm : mapUnderscore (a :: t) = a :: mapUnderscore t := by simp [mapUnderscore, ha]
      rw [hd, hm]
      simp only [List.cons.injEq, true_and, List.mem_cons]
      rw [ih]
      constructor
      · intro h hmem
        rcases hmem with h1 | h2
        · exact ha h1.symm
        · exact h h2
      · intro h hmem
        exact h (Or.inr hmem)

/-- C8: the code derives the directory name with `replace(" ", "")` but the
file name with `replace(" ", "_")`.  At the spaced name "Log Analyzer" the two
normalizations disagree, refuting the claim that directory and file name are
derived by the same rule and agree for names containing spaces. -/
theorem C8_counterexample :
    tool_dir_name "Log Analyzer" = "loganalyzer_tool" ∧
    tool_file_name "Log Analyzer" = "log_analyzer_tool.py" ∧
    tool_dir_stem "Log Analyzer" ≠ tool_file_stem "Log Analyzer" := by
  refine ⟨by decide, by decide, by decide⟩

/-- C8 (amended): the artifact path is
`crews/pdca/tools/<lower,spaces-removed>_tool/<lower,spaces-to-underscores>_tool.py`;
the directory stem and file stem agree exactly when the lowercased name
contains no space (and lowercasing preserves spaces, so any name containing a
space makes them disagree). -/
theorem C8_thm (name : String) :
    (tool_dir_stem name = tool_file_stem name ↔ ' ' ∉ (pyLower name).data) ∧
    (' ' ∈ name.data → ' ' ∈ (pyLower name).data) := by
  constructor
  · show (String.mk (dropSpaces (pyLower name).data) =
        String.mk (mapUnderscore (pyLower name).data)) ↔ _
    rw [String.ext_iff]
    exact dropSpaces_eq_mapUnderscore_iff (pyLower name).data
  · intro h
    have : Char.toLower ' ' = ' ' := by decide
    exact this ▸ List.mem_map_of_mem Char.toLower h

/-- Witness for C8_thm at the spaced name "Log Analyzer". -/
theorem C8_witness :
    (' ' ∈ "Log Analyzer".data) ∧ ' ' ∈ (pyLower "Log Analyzer").data :=
  ⟨by decide, (C8_thm "Log Analyzer").2 (by decide)⟩

/-! ## C6: type-driven parameter defaults
(`ToolASTBuilder.create_parameter_model` lines 291-352 and
`ToolASTBuilder._create_run_method` lines 492-510) -/

/-- The `default=` expression of the generated pydantic `Field` for one
parameter (`create_parameter_model`, lines 296-342): `Option.none` for a
required parameter (the field is built as `Field(...)`), otherwise the given
default or the type-driven fallback chain of lines 301-312. -/
def pm_default (p : ToolParameter) : Option PyExpr :=
  if p.required then Option.none
  else Option.some (
    match p.default with
    | Option.some v => PyExpr.constant v
    | Option.none =>
      if p.type = "string" then PyExpr.constant (PyVal.str "")
      else if p.type = "integer" || p.type = "number" then PyExpr.constant (PyVal.int 0)
      else if p.type = "boolean" then PyExpr.constant (PyVal.bool false)
      else if p.type = "array" then PyExpr.emptyList
      else if p.type = "object" then PyExpr.emptyDict
      else PyExpr.constant PyVal.none)

/-- The default appended for one parameter to the `_run` method's `defaults`
list (`_create_run_method`, lines 493-510): nothing for a required parameter,
otherwise the given default or the same fallback chain (lines 499-510). -/
def rm_default (p : ToolParameter) : Option PyExpr :=
  if p.required then Option.none
  else Option.some (
    match p.default with
    | Option.some v => PyExpr.constant v
    | Option.none =>
      if p.type = "string" then PyExpr.constant (PyVal.str "")
      else if p.type = "integer" || p.type = "number" then PyExpr.constant (PyVal.int 0)
      else if p.type = "boolean" then PyExpr.constant (PyVal.bool false)
      else if p.type = "array" then PyExpr.emptyList
      else if p.type = "object" then PyExpr.emptyDict
      else PyExpr.constant PyVal.none)

/-- The `defaults` list of the generated `_run` method (line 493-510). -/
def run_method_defaults (ps : List ToolParameter) : List PyExpr :=
  ps.filterMap rm_default

/-- C6: for an optional `number` parameter with no default, both generators
fall into the `integer or number` branch and synthesize the Python int `0`,
not the float `0.0` the claim states. -/
theorem C6_counterexample :
    pm_default ⟨"valor", "number", "d", false, Option.none⟩ =
      Option.some (PyExpr.constant (PyVal.int 0)) ∧
    rm_default ⟨"valor", "number", "d", false, Option.none⟩ ≠
      Option.some (PyExpr.constant (PyVal.float 0)) := by
  refine ⟨by decide, by decide⟩

/-- C6 (amended): for every parameter with `required = false` and no default,
the schema-field default and the `_run`-method default agree, and are `""` for
string, `0` for integer, the same int `0` (not `0.0`) for number, `False` for
boolean, `[]` for array and `:empty dict:` for object. -/
theorem C6_thm (p : ToolParameter) (hreq : p.required = false)
    (hdef : p.default = Option.none) :
    pm_default p = rm_default p ∧
    (p.type = "string" → pm_default p = Option.some (PyExpr.constant (PyVal.str ""))) ∧
    ((p.type = "integer" ∨ p.type = "number") →
      pm_default p = Option.some (PyExpr.constant (PyVal.int 0))) ∧
    (p.type = "boolean" → pm_default p = Option.some (PyExpr.constant (PyVal.bool false))) ∧
    (p.type = "array" → pm_default p = Option.some PyExpr.emptyList) ∧
    (p.type = "object" → pm_default p = Option.some PyExpr.emptyDict) := by
  refine ⟨by simp [pm_default, rm_default, hreq, hdef], ?_, ?_, ?_, ?_, ?_⟩
  · intro h; simp [pm_default, hreq, hdef, h]
  · rintro (h | h) <;> simp [pm_default, hreq, hdef, h]
  · intro h; simp [pm_default, hreq, hdef, h]
  · intro h; simp [pm_default, hreq, hdef, h]
  · intro h; simp [pm_default, hreq, hdef, h]

/-- Witness for C6_thm at an optional boolean parameter without default. -/
theorem C6_witness :
    (⟨"flag", "boolean", "d", false, Option.none⟩ : ToolParameter).required = false ∧
    pm_default ⟨"flag", "boolean", "d", false, Option.none⟩ =
      Option.some (PyExpr.constant (PyVal.bool false)) :=
  ⟨rfl, (C6_thm ⟨"flag", "boolean", "d", false, Option.none⟩ rfl rfl).2.2.2.1 rfl⟩

/-! ## The verifier's diagnostic accumulator
(`_ToolAnalysisResult`, tool_verifier.py lines 27-65, and
`ToolVerifierTool._build_result_dict`, lines 202-211) -/

/-- Render an `Option String` the way a Python f-string renders the value
(`None` for the absent case). -/
def optStr : Option String → String
  | Option.some s => s
  | Option.none => "None"

/-- `"-" * n`. -/
def dashes (n : Nat) : String := String.mk (List.replicate n '-')

/-- The mutable state of `_ToolAnalysisResult` that the claims touch.
`hasToolClass` models `tool_class is not None`, `hasInstance` models
`tool_instance is not None`; `error_components` is the `set` of components
(modelled as the insertion list). -/
structure AnalysisResult where
  errors : List String
  warnings : List String
  info : List String
  tool_class_name : Option String
  hasToolClass : Bool
  hasInstance : Bool
  error_components : List String

/-- `_ToolAnalysisResult.add_error` (lines 42-51). -/
def add_error (res : AnalysisResult) (message : String) (component : Option String) :
    AnalysisResult :=
  match component with
  | Option.some c =>
    { res with
      error_components := res.error_components ++ [c],
      errors := res.errors ++
        ["ERRO NO COMPONENTE: " ++ c ++ "\n" ++ dashes 40 ++ "\n" ++ "Problema: " ++ message] }
  | Option.none => { res with errors := res.errors ++ ["ERRO: " ++ message] }

/-- `_ToolAnalysisResult.add_warning` (lines 53-61). -/
def add_warning (res : AnalysisResult) (message : String) (component : Option String) :
    AnalysisResult :=
  match component with
  | Option.some c =>
    { res with warnings := res.warnings ++
        ["AVISO NO COMPONENTE: " ++ c ++ "\n" ++ dashes 40 ++ "\n" ++ "Atenção: " ++ message ++ "\n"] }
  | Option.none => { res with warnings := res.warnings ++ ["AVISO: " ++ message] }

/-- `_ToolAnalysisResult.add_info` (lines 63-65). -/
def add_info (res : AnalysisResult) (message : String) : AnalysisResult :=
  { res with info := res.info ++ ["INFO: " ++ message] }

/-- The dictionary returned by `ToolVerifierTool._build_result_dict`
(lines 202-211). -/
structure ResultDict where
  sucesso : Bool
  erros : List String
  avisos : List String
  infos : List String
  tool_path : String
  tool_class_name : Option String

/-- `ToolVerifierTool._build_result_dict` (lines 202-211): `sucesso` is the
truthiness of `not res.errors`. -/
def build_result_dict (tool_path : String) (res : AnalysisResult) : ResultDict :=
  { sucesso := res.errors.isEmpty,
    erros := res.errors,
    avisos := res.warnings,
    infos := res.info,
    tool_path := tool_path,
    tool_class_name := res.tool_class_name }

/-- A fresh `_ToolAnalysisResult` (lines 29-40). -/
def emptyResult : AnalysisResult :=
  { errors := [], warnings := [], info := [], tool_class_name := Option.none,
    hasToolClass := false, hasInstance := false, error_components := [] }

/-! ## C4: success aggregation -/

/-- One call on the accumulator: an `add_error`, `add_warning` or `add_info`. -/
inductive VerifierOp where
  | err (message : String) (component : Option String)
  | warn (message : String) (component : Option String)
  | note (message : String)

def VerifierOp.isErr : VerifierOp → Bool
  | .err _ _ => true
  | _ => false

def applyOp (res : AnalysisResult) : VerifierOp → AnalysisResult
  | .err m c => add_error res m c
  | .warn m c => add_warning res m c
  | .note m => add_info res m

def applyOps (res : AnalysisResult) (ops : List VerifierOp) : AnalysisResult :=
  ops.foldl applyOp res

theorem applyOps_errors (res : AnalysisResult) (ops : List VerifierOp)
    (h : ∀ op ∈ ops, op.isErr = false) :
    (applyOps res ops).errors = res.errors := by
  induction ops generalizing res with
  | nil => rfl
  | cons op rest ih =>
    have hop := h op (List.mem_cons_self _ _)
    have hrest : ∀ o ∈ rest, o.isErr = false := fun o ho => h o (List.mem_cons_of_mem _ ho)
    show (applyOps (applyOp res op) rest).errors = res.errors
    rw [ih (applyOp res op) hrest]
    cases op with
    | err m c => simp [VerifierOp.isErr] at hop
    | warn m c => cases c <;> rfl
    | note m => rfl

/-- C4: the report's `sucesso` flag is true iff the fatal (`erros`) list is
empty, and any sequence of `add_warning`/`add_info` calls leaves the fatal
list — hence `sucesso` — unchanged. -/
theorem C4_thm (tool_path : String) (res : AnalysisResult) (ops : List VerifierOp)
    (h : ∀ op ∈ ops, op.isErr = false) :
    ((build_result_dict tool_path (applyOps res ops)).sucesso = true ↔
      (build_result_dict tool_path (applyOps res ops)).erros = []) ∧
    (build_result_dict tool_path (applyOps res ops)).erros = res.errors ∧
    (build_result_dict tool_path (applyOps res ops)).sucesso =
      (build_result_dict tool_path res).sucesso := by
  have he := applyOps_errors res ops h
  refine ⟨?_, ?_, ?_⟩
  · show (applyOps res ops).errors.isEmpty = true ↔ (applyOps res ops).errors = []
    exact List.isEmpty_iff
  · exact he
  · show (applyOps res ops).errors.isEmpty = res.errors.isEmpty
    rw [he]

/-- Witness for C4_thm: a warning plus an info on a fresh result leave
success true. -/
theorem C4_witness :
    (∀ op ∈ [VerifierOp.warn "aviso de teste" Option.none, VerifierOp.note "info"],
      op.isErr = false) ∧
    (build_result_dict "f.py"
        (applyOps emptyResult
          [VerifierOp.warn "aviso de teste" Option.none, VerifierOp.note "info"])).sucesso =
      (build_result_dict "f.py" emptyResult).sucesso :=
  ⟨by decide,
   (C4_thm "f.py" emptyResult
      [VerifierOp.warn "aviso de teste" Option.none, VerifierOp.note "info"]
      (by decide)).2.2⟩

/-! ## C5: the instantiation stage (`ToolVerifierTool._verify_instance`,
tool_verifier.py lines 451-483) -/

/-- What the running instance exposes, as seen by the attribute checks of
lines 464-479: whether `name`/`description` are strings, the `name` value,
and the state of `args_schema`. -/
structure InstInfo where
  nameIsStr : Bool
  nameValue : String
  descIsStr : Bool
  hasArgsSchema : Bool
  argsSchemaIsModel : Bool
  argsSchemaName : String

/-- `ToolVerifierTool._verify_instance` (lines 451-483).  `inst` is the
outcome of the zero-argument construction `res.tool_class()`: an exception
text or the constructed instance.  Note line 483: a construction failure is
recorded with `add_error` (the exception text plus traceback, modelled as the
text), although the method's own docstring (line 452) says common errors are
treated as warnings. -/
def verify_instance (res : AnalysisResult) (inst : Except String InstInfo) :
    AnalysisResult :=
  if res.hasToolClass = false then
    add_info res "Instanciação pulada devido a classe não carregada."
  else
    let res1 := add_info res
      ("Tentando instanciar \x27" ++ optStr res.tool_class_name ++ "\x27...")
    match inst with
    | Except.error e => add_error res1 ("Falha na instanciação: " ++ e) Option.none
    | Except.ok i =>
      let res2 := { add_info res1 "Instanciação da ferramenta bem-sucedida." with
        hasInstance := true }
      let res3 :=
        if i.nameIsStr = false then
          add_error res2 ("Atributo \x27name\x27 (string) não encontrado na INSTÂNCIA de \x27"
            ++ optStr res2.tool_class_name ++ "\x27.") Option.none
        else
          add_info res2 ("Atributo \x27name\x27 encontrado na instância: \x27"
            ++ i.nameValue ++ "\x27.")
      let res4 :=
        if i.descIsStr = false then
          add_error res3 ("Atributo \x27description\x27 (string) não encontrado na INSTÂNCIA de \x27"
            ++ optStr res3.tool_class_name ++ "\x27.") Option.none
        else add_info res3 "Atributo \x27description\x27 encontrado na instância."
      if i.hasArgsSchema = false then
        add_error res4 "Atributo \x27args_schema\x27 não encontrado na instância da ferramenta."
          Option.none
      else if i.argsSchemaIsModel = false then
        add_error res4 ("Atributo \x27args_schema\x27 na INSTÂNCIA de \x27"
          ++ optStr res4.tool_class_name
          ++ "\x27 não é uma subclasse de pydantic.BaseModel.") Option.none
      else
        add_info res4 ("Atributo \x27args_schema\x27 encontrado na instância: "
          ++ i.argsSchemaName ++ ".")

/-- A state in which the class was loaded successfully (stages 1-4 passed
without diagnostics), ready for the instantiation stage. -/
def loadedState : AnalysisResult :=
  { errors := [], warnings := [], info := [], tool_class_name := Option.some "LogAnalyzerTool",
    hasToolClass := true, hasInstance := false, error_components := [] }

/-- C5: evaluating `_verify_instance` at an artifact whose zero-argument
construction raises.  The failure is recorded via `add_error` — a fatal
diagnostic that flips `sucesso` to false and leaves `warnings` untouched —
contradicting both the claim and the method's own docstring
("tratando erros comuns como avisos"). -/
theorem C5_thm :
    (verify_instance loadedState
        (Except.error "TypeError: __init__() missing 1 required positional argument")).errors =
      ["ERRO: Falha na instanciação: TypeError: __init__() missing 1 required positional argument"] ∧
    (verify_instance loadedState
        (Except.error "TypeError: __init__() missing 1 required positional argument")).warnings = [] ∧
    (build_result_dict "f.py"
        (verify_instance loadedState
          (Except.error "TypeError: __init__() missing 1 required positional argument"))).sucesso
      = false := by
  refine ⟨by decide, by decide, by decide⟩

/-! ## C10: restoration of `sys.path`
(`ToolVerifierTool._verify_import_and_inspect`, tool_verifier.py
lines 386-421) -/

/-- Python `x in l` for a list of strings. -/
def memB (x : String) : List String → Bool
  | [] => false
  | a :: t => x = a || memB x t

/-- Python `l.remove(x)`: drop the first occurrence. -/
def removeFirst : List String → String → List String
  | [], _ => []
  | a :: t, x => if a = x then t else a :: removeFirst t x

/-- How far the dynamic-load attempt gets: `spec_from_file_location` fails
(return before `sys.path` is touched, lines 395-398), `exec_module` raises
(lines 412-417), or the module executes (line 410). -/
inductive LoadPhase where
  | specFail
  | execFail
  | okLoad
  deriving DecidableEq

/-- The net effect of `_verify_import_and_inspect` on `sys.path`
(lines 400-421): save a copy, insert `parent_dir` at the front unless already
present; on an exec failure the `except` block removes `parent_dir` whenever
present (even a pre-existing entry) and the `finally` block then removes it
again only if still present and not in the saved copy; on success only the
`finally` block runs. -/
def verifier_sys_path (sysPath : List String) (parentDir : String) (phase : LoadPhase) :
    List String :=
  match phase with
  | LoadPhase.specFail => sysPath
  | LoadPhase.execFail =>
    let p1 := if memB parentDir sysPath then sysPath else parentDir :: sysPath
    let p2 := if memB parentDir p1 then removeFirst p1 parentDir else p1
    if memB parentDir p2 && !(memB parentDir sysPath) then removeFirst p2 parentDir else p2
  | LoadPhase.okLoad =>
    let p1 := if memB parentDir sysPath then sysPath else parentDir :: sysPath
    if memB parentDir p1 && !(memB parentDir sysPath) then removeFirst p1 parentDir else p1

/-- C10: when the module's top-level execution raises and the artifact's
parent directory was already on `sys.path` beforehand, the `except` block of
`_verify_import_and_inspect` removes the pre-existing entry, so `sys.path`
is not restored. -/
theorem C10_counterexample :
    verifier_sys_path ["/a"] "/a" LoadPhase.execFail = [] ∧
    verifier_sys_path ["/a"] "/a" LoadPhase.execFail ≠ ["/a"] := by
  refine ⟨by decide, by decide⟩

/-- C10 (amended): `sys.path` is restored on every exit path — except when
module execution raises while the parent directory was already present, in
which case exactly its first pre-existing occurrence is removed. -/
theorem C10_thm (sysPath : List String) (parentDir : String) (phase : LoadPhase) :
    (phase ≠ LoadPhase.execFail ∨ memB parentDir sysPath = false →
      verifier_sys_path sysPath parentDir phase = sysPath) ∧
    (phase = LoadPhase.execFail → memB parentDir sysPath = true →
      verifier_sys_path sysPath parentDir phase = removeFirst sysPath parentDir) := by
  constructor
  · rintro (hph | hmem)
    · cases phase with
      | specFail => rfl
      | execFail => exact absurd rfl hph
      | okLoad =>
        show (if memB parentDir
            (if memB parentDir sysPath then sysPath else parentDir :: sysPath) &&
            !(memB parentDir sysPath) then _ else _) = sysPath
        by_cases hm : memB parentDir sysPath = true
        · simp [hm]
        · have hm' : memB parentDir sysPath = false := by
            revert hm; cases memB parentDir sysPath <;> simp
          simp [hm', memB, removeFirst]
    · cases phase with
      | specFail => rfl
      | execFail =>
        show (let p1 := if memB parentDir sysPath then sysPath else parentDir :: sysPath
              let p2 := if memB parentDir p1 then removeFirst p1 parentDir else p1
              if memB parentDir p2 && !(memB parentDir sysPath) then removeFirst p2 parentDir
              else p2) = sysPath
        simp only [hmem]
        simp [memB, removeFirst, hmem]
      | okLoad =>
        show (if memB parentDir
            (if memB parentDir sysPath then sysPath else parentDir :: sysPath) &&
            !(memB parentDir sysPath) then _ else _) = sysPath
        simp [hmem, memB, removeFirst]
  · intro hph hmem
    subst hph
    show (let p1 := if memB parentDir sysPath then sysPath else parentDir :: sysPath
          let p2 := if memB parentDir p1 then removeFirst p1 parentDir else p1
          if memB parentDir p2 && !(memB parentDir sysPath) then removeFirst p2 parentDir
          else p2) = removeFirst sysPath parentDir
    simp [hmem]

/-- Witness for C10_thm: a duplicated pre-existing entry, execution
failure; exactly the first occurrence disappears. -/
theorem C10_witness :
    memB "/x" ["/x", "/a", "/x"] = true ∧
    verifier_sys_path ["/x", "/a", "/x"] "/x" LoadPhase.execFail =
      removeFirst ["/x", "/a", "/x"] "/x" :=
  ⟨by decide, (C10_thm ["/x", "/a", "/x"] "/x" LoadPhase.execFail).2 rfl (by decide)⟩

/-! ## The synthesis engine
(`DynamicToolCreator` and `ToolASTBuilder`, dynamic_tool_creator.py) -/

/-- A specification as received by `DynamicToolCreator._run` (lines 715-721),
after the parameter dicts are converted (lines 760-786).  Fragments carry
their `ast.parse` outcome; `implementation` models the already-stripped text
(line 514 applies `.strip()` before parsing). -/
structure ToolDefn where
  name : String
  description : String
  parameters : List ToolParameter
  implementation : Fragment
  imports : List Fragment
  custom_methods : List Fragment

/-- Line 399 / 278: `self.tool_def.name.replace(' ', '')` (no lowercasing). -/
def cleanName (name : String) : String := String.mk (dropSpaces name.data)

def Fragment.isParsedB (f : Fragment) : Bool :=
  match f.outcome with
  | ParseOutcome.parsed _ => true
  | _ => false

/-- `verificar_metodos_vazios` body (lines 696-711) for one fragment: the
method name when the fragment parses to a `FunctionDef` whose body is exactly
`[Pass]`; parse failures (and an empty parse, whose `body[0]` raises) are
swallowed by the `except` clause and skipped. -/
def isEmptyMethodName : Fragment → Option String
  | ⟨_, ParseOutcome.syntaxError _ _ _⟩ => Option.none
  | ⟨_, ParseOutcome.parsed []⟩ => Option.none
  | ⟨_, ParseOutcome.parsed (s :: _)⟩ =>
    match s with
    | PyStmt.funcDef n [PyStmt.passStmt] => Option.some n
    | _ => Option.none

/-- `DynamicToolCreator.verificar_metodos_vazios` (lines 685-713). -/
def verificar_metodos_vazios (ms : List Fragment) : List String :=
  ms.filterMap isEmptyMethodName

/-- The error message of line 757. -/
def emptyMethodsMsg (names : List String) : String :=
  "ERRO: Os seguintes métodos auxiliares estão vazios (apenas \x27pass\x27): " ++
    pyJoin ", " names ++
    ". \nMétodos vazios não são permitidos, você deve implementar a lógica necessária para cada método auxiliar definido."

/-- Exceptions escaping `DynamicToolCreator._run` during AST building:
`rawSyntaxError` is an uncaught `SyntaxError` propagating unchanged (custom
methods, line 457, and import fragments, line 267); `implSyntaxError` is the
re-raised error of `_create_run_method` (lines 521-592), carrying the tool
name, the original message, the line number within the fragment, the caret
offset, the ±3-line context slice and the parameter names — followed in the
real message by a fixed instruction block that does not depend on the error
message. -/
inductive SynthError where
  | rawSyntaxError (lineno offset : Nat) (msg : String)
  | implSyntaxError (toolName : String) (msg : String) (lineno offset : Nat)
      (contexto : List String) (paramNames : List String)

/-- True exactly for the formatted implementation error that carries a
line/context/hint report. -/
def SynthError.carriesFragmentReport : SynthError → Bool
  | .implSyntaxError .. => true
  | _ => false

/-- Lines 528-530: `contexto = linhas_codigo[max(0, erro_linha-4) : min(len, erro_linha+3)]`. -/
def implContext (lines : List String) (lineno : Nat) : List String :=
  (lines.drop (lineno - 4)).take (min lines.length (lineno + 3) - (lineno - 4))

/-- The first custom-method fragment whose bare `ast.parse` (line 457) raises,
as the raw propagating error. -/
def firstCustomError : List Fragment → Option SynthError
  | [] => Option.none
  | m :: rest =>
    match m.outcome with
    | ParseOutcome.syntaxError ln off msg =>
      Option.some (SynthError.rawSyntaxError ln off msg)
    | ParseOutcome.parsed _ => firstCustomError rest

/-- `_create_run_method` (lines 512-592): parse the stripped implementation;
on `SyntaxError`, re-raise the formatted report. -/
def create_run_method_check (toolName : String) (paramNames : List String)
    (impl : Fragment) : Except SynthError (List PyStmt) :=
  match impl.outcome with
  | ParseOutcome.parsed stmts => Except.ok stmts
  | ParseOutcome.syntaxError ln off msg =>
    Except.error (SynthError.implSyntaxError toolName msg ln off
      (implContext impl.lines ln) paramNames)

/-- The fragment-parsing behavior of `create_tool_class` (lines 455-461):
custom methods are parsed bare, in order, before `_create_run_method` runs. -/
def create_tool_class_check (toolName : String) (paramNames : List String)
    (ms : List Fragment) (impl : Fragment) : Except SynthError (List PyStmt) :=
  match firstCustomError ms with
  | Option.some e => Except.error e
  | Option.none => create_run_method_check toolName paramNames impl

/-! ### The generated module structure -/

/-- The synthesized module, at the statement granularity of `PyStmt`. -/
structure GenModule where
  topLevel : List PyStmt

/-- `body[0]` of a parsed fragment, as spliced by lines 267 and 457. -/
def fragmentStmt (f : Fragment) : PyStmt :=
  match f.outcome with
  | ParseOutcome.parsed (s :: _) => s
  | _ => PyStmt.other

/-- The three fixed imports of `add_imports` (lines 248-252). -/
def stdImportFragments : List Fragment :=
  [⟨["from typing import Dict, List, Any, Optional, Type"],
    ParseOutcome.parsed [PyStmt.importStmt "from typing import Dict, List, Any, Optional, Type"]⟩,
   ⟨["from pydantic import BaseModel, Field"],
    ParseOutcome.parsed [PyStmt.importStmt "from pydantic import BaseModel, Field"]⟩,
   ⟨["from crewai.tools import BaseTool"],
    ParseOutcome.parsed [PyStmt.importStmt "from crewai.tools import BaseTool"]⟩]

/-- Order-preserving de-duplication of the import lines (lines 257-263),
keyed on the import text. -/
def dedupImportsAux : List Fragment → List (List String) → List Fragment
  | [], _ => []
  | i :: rest, seen =>
    if seen.contains i.lines then dedupImportsAux rest seen
    else i :: dedupImportsAux rest (i.lines :: seen)

def dedupImports (ims : List Fragment) : List Fragment := dedupImportsAux ims []

/-- Statements the generated implementation body contributes to `_run`. -/
def implStmts (td : ToolDefn) : List PyStmt :=
  match td.implementation.outcome with
  | ParseOutcome.parsed s => s
  | _ => []

/-- The body of the generated tool class (`create_tool_class`, lines
396-473): docstring, `model_config`, `name`, `description`, `args_schema`
when parameters exist, the spliced custom methods, then `_run`. -/
def toolClassBody (td : ToolDefn) : List PyStmt :=
  [PyStmt.exprStmt, PyStmt.assign "model_config", PyStmt.annAssign "name",
    PyStmt.annAssign "description"] ++
  (if td.parameters.isEmpty then [] else [PyStmt.annAssign "args_schema"]) ++
  td.custom_methods.map fragmentStmt ++
  [PyStmt.funcDef "_run" (implStmts td)]

/-- The synthesized module (`_run` lines 798-812: `add_imports`, then
`create_parameter_model` when parameters exist, then `create_tool_class`
which also appends the `if __name__` block). -/
def buildToolModule (td : ToolDefn) : GenModule :=
  ⟨(dedupImports (stdImportFragments ++ td.imports)).map fragmentStmt ++
    [PyStmt.exprStmt, PyStmt.assign "DESCRIPTIONS", PyStmt.exprStmt,
      PyStmt.funcDef "get_description" [PyStmt.exprStmt, PyStmt.ret]] ++
    (if td.parameters.isEmpty then [] else
      [PyStmt.classDef (cleanName td.name ++ "Parameters") ["BaseModel"]
        (PyStmt.exprStmt :: td.parameters.map (fun p => PyStmt.annAssign p.name))]) ++
    [PyStmt.classDef (cleanName td.name ++ "Tool") ["BaseTool"] (toolClassBody td),
      PyStmt.ifStmt [PyStmt.assign "tool", PyStmt.assign "result", PyStmt.exprStmt] []]⟩

/-! ### The file-system effect of `DynamicToolCreator._run` -/

/-- Directories created and files written, by path.  `mkdirP` models
`Path.mkdir(parents=True, exist_ok=True)` restricted to the leaf directory. -/
structure FsState where
  dirs : List String
  files : List String

def mkdirP (fs : FsState) (d : String) : FsState :=
  if memB d fs.dirs then fs else { fs with dirs := fs.dirs ++ [d] }

def writeFile (fs : FsState) (p : String) : FsState :=
  if memB p fs.files then fs else { fs with files := fs.files ++ [p] }

def fileExists (fs : FsState) (p : String) : Bool := memB p fs.files

inductive CreatorRes where
  | emptyErr (msg : String)
  | exc (e : SynthError)
  | wrote (path : String) (m : GenModule)

/-- `DynamicToolCreator._run` (lines 715-824), up to the point where the
artifact and its package `__init__.py` are on disk: directory creation
(line 750) happens before the empty-method rejection (lines 754-758); import
and fragment parse errors propagate as exceptions; the file is written at
line 816.  The verification/report tail performs no further writes. -/
def creator_run (fs : FsState) (td : ToolDefn) : FsState × CreatorRes :=
  let dirPath := tools_dir_path td.name
  let fs1 := mkdirP fs dirPath
  let filePath := dirPath ++ "/" ++ tool_file_name td.name
  let vazios := verificar_metodos_vazios td.custom_methods
  if vazios.isEmpty = false then (fs1, CreatorRes.emptyErr (emptyMethodsMsg vazios))
  else
    match firstCustomError td.imports with
    | Option.some e => (fs1, CreatorRes.exc e)
    | Option.none =>
      match create_tool_class_check td.name (td.parameters.map (·.name))
          td.custom_methods td.implementation with
      | Except.error e => (fs1, CreatorRes.exc e)
      | Except.ok _ =>
        let fs2 := writeFile fs1 filePath
        let initPath := dirPath ++ "/__init__.py"
        let fs3 := if fileExists fs2 initPath then fs2 else writeFile fs2 initPath
        (fs3, CreatorRes.wrote filePath (buildToolModule td))

/-! ## C2: empty auxiliary methods are rejected, but after the mkdir -/

/-- A syntactically fine implementation fragment. -/
def implOkFragment : Fragment := ⟨["x = 1"], ParseOutcome.parsed [PyStmt.assign "x"]⟩

/-- A no-op auxiliary method. -/
def emptyMethodFragment : Fragment :=
  ⟨["def ajuda(self):", "    pass"],
    ParseOutcome.parsed [PyStmt.funcDef "ajuda" [PyStmt.passStmt]]⟩

def c2Spec : ToolDefn :=
  ⟨"Data Cleaner", "limpa dados", [], implOkFragment, [], [emptyMethodFragment]⟩

def emptyFs : FsState := ⟨[], []⟩

/-- C2: on a spec with one no-op auxiliary method, `_run` does return the
error and writes no file — but the tool directory has already been created
(line 750 precedes the check of line 755), refuting "no file and no directory
is created before the failure is reported". -/
theorem C2_counterexample :
    (creator_run emptyFs c2Spec).2 =
      CreatorRes.emptyErr (emptyMethodsMsg ["ajuda"]) ∧
    (creator_run emptyFs c2Spec).1.files = [] ∧
    (creator_run emptyFs c2Spec).1.dirs = ["crews/pdca/tools/datacleaner_tool"] ∧
    (creator_run emptyFs c2Spec).1.dirs ≠ [] := by
  refine ⟨rfl, rfl, rfl, by decide⟩

/-- C2 (amended): for every spec containing a no-op auxiliary method,
synthesis stops with an error message listing every offending method name and
writes no file — but the tool directory is created before the failure is
reported. -/
theorem C2_thm (fs : FsState) (td : ToolDefn)
    (h : verificar_metodos_vazios td.custom_methods ≠ []) :
    (creator_run fs td).1.files = fs.files ∧
    (creator_run fs td).1.dirs = (mkdirP fs (tools_dir_path td.name)).dirs ∧
    (creator_run fs td).2 =
      CreatorRes.emptyErr (emptyMethodsMsg (verificar_metodos_vazios td.custom_methods)) ∧
    (∀ n ∈ verificar_metodos_vazios td.custom_methods,
      strHas (emptyMethodsMsg (verificar_metodos_vazios td.custom_methods)) n = true) := by
  have hv : (verificar_metodos_vazios td.custom_methods).isEmpty = false := by
    cases hvz : verificar_metodos_vazios td.custom_methods with
    | nil => exact absurd hvz h
    | cons a t => rfl
  have hmk : ∀ (f : FsState) (d : String), (mkdirP f d).files = f.files := by
    intro f d
    unfold mkdirP
    split <;> rfl
  refine ⟨?_, ?_, ?_, ?_⟩
  · show (creator_run fs td).1.files = fs.files
    simp only [creator_run, hv, if_true]
    exact hmk fs _
  · simp only [creator_run, hv, if_true]
  · simp only [creator_run, hv, if_true]
  · intro n hn
    show strHas
      ("ERRO: Os seguintes métodos auxiliares estão vazios (apenas \x27pass\x27): " ++
        pyJoin ", " (verificar_metodos_vazios td.custom_methods) ++
        ". \nMétodos vazios não são permitidos, você deve implementar a lógica necessária para cada método auxiliar definido.") n = true
    apply strHas_append_left
    apply strHas_append_right
    exact strHas_pyJoin ", " _ n hn

/-- Witness for C2_thm at the concrete spec with one no-op method. -/
theorem C2_witness :
    verificar_metodos_vazios c2Spec.custom_methods ≠ [] ∧
    (creator_run emptyFs c2Spec).1.files = emptyFs.files :=
  ⟨by decide, (C2_thm emptyFs c2Spec (by decide)).1⟩

/-! ## C9: syntax errors in source fragments -/

/-- A custom-method fragment that fails to parse. -/
def badMethodFragment : Fragment :=
  ⟨["def quebrado(self:", "    return 1"],
    ParseOutcome.syntaxError 1 19 "expected \x27)\x27"⟩

/-- C9: a custom-method fragment that fails to parse makes `create_tool_class`
raise the bare `SyntaxError` of `ast.parse` (line 457) — no fragment line
number/context/hint report is attached, refuting the claim for
auxiliary-method fragments. -/
theorem C9_counterexample :
    create_tool_class_check "Data Cleaner" [] [badMethodFragment] implOkFragment =
      Except.error (SynthError.rawSyntaxError 1 19 "expected \x27)\x27") ∧
    SynthError.carriesFragmentReport (SynthError.rawSyntaxError 1 19 "expected \x27)\x27") =
      false := by
  refine ⟨rfl, rfl⟩

theorem firstCustomError_raw (ms : List Fragment) (e : SynthError)
    (h : firstCustomError ms = Option.some e) : e.carriesFragmentReport = false := by
  induction ms with
  | nil => cases h
  | cons m rest ih =>
    cases ho : m.outcome with
    | syntaxError ln off msg =>
      have : Option.some (SynthError.rawSyntaxError ln off msg) = Option.some e := by
        rw [← h]
        simp only [firstCustomError, ho]
      cases this
      rfl
    | parsed s =>
      apply ih
      rw [← h]
      simp only [firstCustomError, ho]

/-- C9 (amended): a parse failure in the entry-point body is re-raised with
the failing line number within the fragment, the caret offset, the ±3-line
context slice and the parameter list (followed by a fixed instruction block
not keyed to the error pattern); a parse failure in an auxiliary method
instead propagates as the bare `SyntaxError`, with no such report. -/
theorem C9_thm (toolName : String) (paramNames : List String)
    (ms : List Fragment) (impl : Fragment) (ln off : Nat) (msg : String)
    (e : SynthError) :
    (firstCustomError ms = Option.some e →
      create_tool_class_check toolName paramNames ms impl = Except.error e ∧
      e.carriesFragmentReport = false) ∧
    (firstCustomError ms = Option.none →
      impl.outcome = ParseOutcome.syntaxError ln off msg →
      create_tool_class_check toolName paramNames ms impl =
        Except.error (SynthError.implSyntaxError toolName msg ln off
          (implContext impl.lines ln) paramNames) ∧
      (SynthError.implSyntaxError toolName msg ln off
          (implContext impl.lines ln) paramNames).carriesFragmentReport = true) := by
  constructor
  · intro h
    refine ⟨?_, firstCustomError_raw ms e h⟩
    simp only [create_tool_class_check, h]
  · intro h hi
    refine ⟨?_, rfl⟩
    simp only [create_tool_class_check, h, create_run_method_check, hi]

/-- A stripped implementation fragment with a syntax error on its line 2. -/
def badImplFragment : Fragment :=
  ⟨["if x:", "print(1)"], ParseOutcome.syntaxError 2 1 "expected an indented block"⟩

/-- Witness for C9_thm: the formatted report for a failing entry-point
body fragment. -/
theorem C9_witness :
    firstCustomError [] = Option.none ∧
    badImplFragment.outcome = ParseOutcome.syntaxError 2 1 "expected an indented block" ∧
    create_tool_class_check "LogAnalyzer" ["caminho"] [] badImplFragment =
      Except.error (SynthError.implSyntaxError "LogAnalyzer" "expected an indented block" 2 1
        (implContext ["if x:", "print(1)"] 2) ["caminho"]) :=
  ⟨rfl, rfl,
   ((C9_thm "LogAnalyzer" ["caminho"] [] badImplFragment 2 1 "expected an indented block"
      (SynthError.rawSyntaxError 0 0 "")).2 rfl rfl).1⟩

/-! ## C3: the execution harness
(`ExecutarFerramentaTool._run`, executar_ferramenta_tool.py lines 52-145) -/

/-- The loaded instance: whether `run` exists and is callable, and the
outcome of `ferramenta.run(**parametros)` (exception text or the rendered
result). -/
structure PyInstance where
  hasRunMethod : Bool
  runResult : List (String × PyVal) → Except String String

/-- A class object in the loaded module: the outcome of its zero-argument
construction. -/
structure PyClassObj where
  construct : Except String PyInstance

/-- The loaded module's attribute table (`hasattr`/`getattr`). -/
structure PyModuleObj where
  members : List (String × PyClassObj)

/-- Outcome of `spec_from_file_location` + `exec_module` on a path. -/
inductive ModLoad where
  | noSpec
  | execRaises (msg : String)
  | loaded (m : PyModuleObj)

/-- The runtime environment the harness consults: `project_root` (line 11),
the result of the upward search for a `crews` directory (lines 72-80), and
the file-existence and module-loading oracles. -/
structure ExecEnv where
  projectRoot : String
  crewsBase : Option String
  pathExists : String → Bool
  load : String → ModLoad

/-- `os.path.isabs` (POSIX view). -/
def isAbsPath (p : String) : Bool := strStarts p "/"

/-- `os.path.join(a, b)` with `b` relative. -/
def joinPath (a b : String) : String := a ++ "/" ++ b

/-- Python `repr` of the scalar values of `PyVal` (the f-strings render the
`parametros` dict through `repr` of its items). -/
def pyReprVal : PyVal → String
  | PyVal.none => "None"
  | PyVal.bool b => if b then "True" else "False"
  | PyVal.int n => toString n
  | PyVal.float n => toString n ++ ".0"
  | PyVal.str s => "\x27" ++ s ++ "\x27"

/-- Python `str` of a `dict` of keyword arguments. -/
def pyReprParams (ps : List (String × PyVal)) : String :=
  "\x7b" ++ pyJoin ", " (ps.map (fun kv => "\x27" ++ kv.1 ++ "\x27: " ++ pyReprVal kv.2)) ++ "\x7d"

/-- Lines 60-82: the candidate paths tried, in order. -/
def candidatePaths (env : ExecEnv) (caminho : String) : List String :=
  [caminho] ++
  (if isAbsPath caminho then [] else
    [joinPath env.projectRoot caminho] ++
    (if strStarts caminho "crews/" || strStarts caminho "crews\\" then
      (match env.crewsBase with
       | Option.some base =>
         [joinPath base (if strStarts caminho "crews/" then String.mk (caminho.data.drop 6)
           else String.mk (caminho.data.drop 7))]
       | Option.none => [])
     else []))

/-- Line 92. -/
def msgNotFound (caminhos : List String) : String :=
  "ERRO: O arquivo não foi encontrado em nenhum dos caminhos tentados:\n" ++
    pyJoin "\n" caminhos

/-- Line 99. -/
def msgNoSpec (cv : String) : String :=
  "ERRO: Não foi possível carregar o módulo do arquivo " ++ cv ++ "."

/-- Line 106. -/
def msgNoClass (nome cv : String) : String :=
  "ERRO: A classe " ++ nome ++ " não foi encontrada no módulo " ++ cv ++ "."

/-- Line 114. -/
def msgNoRun (nome : String) : String :=
  "ERRO: A classe " ++ nome ++ " não possui um método \x27run\x27 executável."

/-- Lines 129-145: the catch-all `except` branch, the only failure message
carrying the path, the class, the attempted arguments and the error text. -/
def msgGenericErr (nome caminho : String) (params : List (String × PyVal))
    (e : String) : String :=
  "\n## ERRO na Execução de Ferramenta\n\n**Ferramenta:** " ++ nome ++
    "\n**Caminho:** " ++ caminho ++
    "\n**Parâmetros tentados:** " ++ pyReprParams params ++
    "\n\n### Detalhes do erro:\n```\n" ++ e ++
    "\n```\n\nVerifique se:\n1. O caminho está correto\n2. A classe existe e herda de BaseTool\n3. Os parâmetros fornecidos correspondem aos esperados pela ferramenta\n"

/-- Lines 119-127: the success message. -/
def msgSuccess (nome caminho : String) (params : List (String × PyVal))
    (r : String) : String :=
  "\n## Execução de Ferramenta: " ++ nome ++
    "\n\n**Caminho:** " ++ caminho ++
    "\n**Parâmetros utilizados:** " ++ pyReprParams params ++
    "\n\n### Resultado da execução:\n" ++ r ++ "\n"

/-- `hasattr`/`getattr` on the module's member table. -/
def findMember (ms : List (String × PyClassObj)) (n : String) : Option PyClassObj :=
  (ms.find? (fun kv => kv.1 = n)).map (fun kv => kv.2)

/-- `ExecutarFerramentaTool._run` (lines 52-145).  Total by construction:
every branch, including all the ones inside the outer `try`, yields a
string — the raised exceptions of the loading/instantiation/invocation
oracles are caught by the catch-all `except` of line 128. -/
def executar_run (env : ExecEnv) (caminho nome : String)
    (params : List (String × PyVal)) : String :=
  let caminhos := candidatePaths env caminho
  match caminhos.find? env.pathExists with
  | Option.none => msgNotFound caminhos
  | Option.some cv =>
    match env.load cv with
    | ModLoad.noSpec => msgNoSpec cv
    | ModLoad.execRaises e => msgGenericErr nome caminho params e
    | ModLoad.loaded m =>
      match findMember m.members nome with
      | Option.none => msgNoClass nome cv
      | Option.some cls =>
        match cls.construct with
        | Except.error e => msgGenericErr nome caminho params e
        | Except.ok inst =>
          if inst.hasRunMethod = false then msgNoRun nome
          else
            match inst.runResult params with
            | Except.error e => msgGenericErr nome caminho params e
            | Except.ok r => msgSuccess nome caminho params r

theorem strHas_self (s : String) : strHas s s = true := subB_refl s.data

theorem strHas_append_right_self (a s : String) : strHas (a ++ s) s = true :=
  strHas_append_right a s s (strHas_self s)

/-- An environment in which no candidate path exists. -/
def env0 : ExecEnv :=
  ⟨"/proj", Option.none, fun _ => false, fun _ => ModLoad.noSpec⟩

/-- C3: the missing-file branch (line 92) returns only the tried paths; at a
nonexistent relative path the returned failure string does not contain the
class name (nor the arguments or an underlying error text), refuting "every
failure branch ... includes the artifact path, the class name, the attempted
arguments, and the underlying error text". -/
theorem C3_counterexample :
    executar_run env0 "tools/x.py" "FooKlass" [] =
      msgNotFound ["tools/x.py", "/proj/tools/x.py"] ∧
    strHas (executar_run env0 "tools/x.py" "FooKlass" []) "FooKlass" = false := by
  refine ⟨rfl, by decide⟩

/-- C3 (amended): the harness never raises — every branch returns a formatted
string; the catch-all exception branch includes the artifact path, class
name, attempted arguments and the underlying error text, while the early
branches include a subset; in particular, a nonexistent class name on an
existing artifact yields the line-106 message, which contains that class name
and the resolved artifact path. -/
theorem C3_thm (env : ExecEnv) (caminho nome : String)
    (params : List (String × PyVal)) (e : String) (m : PyModuleObj) :
    (env.pathExists caminho = true → env.load caminho = ModLoad.execRaises e →
      executar_run env caminho nome params = msgGenericErr nome caminho params e ∧
      strHas (msgGenericErr nome caminho params e) nome = true ∧
      strHas (msgGenericErr nome caminho params e) caminho = true ∧
      strHas (msgGenericErr nome caminho params e) (pyReprParams params) = true ∧
      strHas (msgGenericErr nome caminho params e) e = true) ∧
    (env.pathExists caminho = true → env.load caminho = ModLoad.loaded m →
      findMember m.members nome = Option.none →
      executar_run env caminho nome params = msgNoClass nome caminho ∧
      strHas (msgNoClass nome caminho) nome = true ∧
      strHas (msgNoClass nome caminho) caminho = true) := by
  have hfind : env.pathExists caminho = true →
      (candidatePaths env caminho).find? env.pathExists = Option.some caminho := by
    intro hex
    show List.find? env.pathExists (caminho :: _) = Option.some caminho
    rw [List.find?_cons_of_pos _ hex]
  constructor
  · intro hex hload
    refine ⟨?_, ?_, ?_, ?_, ?_⟩
    · show executar_run env caminho nome params = _
      unfold executar_run
      simp only [hfind hex, hload]
    · apply strHas_append_left
      apply strHas_append_left
      apply strHas_append_left
      apply strHas_append_left
      apply strHas_append_left
      apply strHas_append_left
      apply strHas_append_left
      exact strHas_append_right_self _ nome
    · apply strHas_append_left
      apply strHas_append_left
      apply strHas_append_left
      apply strHas_append_left
      apply strHas_append_left
      exact strHas_append_right_self _ caminho
    · apply strHas_append_left
      apply strHas_append_left
      apply strHas_append_left
      exact strHas_append_right_self _ (pyReprParams params)
    · apply strHas_append_left
      exact strHas_append_right_self _ e
  · intro hex hload hmem
    refine ⟨?_, ?_, ?_⟩
    · unfold executar_run
      simp only [hfind hex, hload, hmem]
    · apply strHas_append_left
      apply strHas_append_left
      apply strHas_append_left
      exact strHas_append_right_self _ nome
    · apply strHas_append_left
      exact strHas_append_right_self _ caminho

/-- An environment in which `t.py` exists and loads to a module exposing no
classes. -/
def env1 : ExecEnv :=
  ⟨"/proj", Option.none, fun p => p = "t.py",
    fun p => if p = "t.py" then ModLoad.loaded ⟨[]⟩ else ModLoad.noSpec⟩

/-- Witness for C3_thm: a nonexistent class on an existing artifact. -/
theorem C3_witness :
    env1.pathExists "t.py" = true ∧
    executar_run env1 "t.py" "GhostTool" [] = msgNoClass "GhostTool" "t.py" ∧
    strHas (msgNoClass "GhostTool" "t.py") "GhostTool" = true :=
  ⟨by decide,
   ((C3_thm env1 "t.py" "GhostTool" [] "" ⟨[]⟩).2 (by decide) rfl rfl).1,
   ((C3_thm env1 "t.py" "GhostTool" [] "" ⟨[]⟩).2 (by decide) rfl rfl).2.1⟩

/-! ## The verifier's static parse stage
(`ToolVerifierTool._verify_ast`, tool_verifier.py lines 213-317, and
`_identificar_componente_com_erro`, lines 319-364) -/

/-- The `MAPEAMENTO_COMPONENTES` table (lines 331-339), totalized over the
seven component names the heuristic can produce. -/
def mapeamentoComponentes (c : String) : String :=
  if c = "Método _run" then "implementação do método _run"
  else if c = "Atributos da Classe" then "definição dos atributos da classe"
  else if c = "Schema de Entrada" then "definição dos parâmetros"
  else if c = "Herança de Classe" then "estrutura da classe"
  else if c = "Estrutura Python" then "sintaxe Python"
  else if c = "Imports" then "importações"
  else "métodos personalizados"

/-- `_identificar_componente_com_erro` (lines 319-364): scan a ±5-line window
and the stripped error line for marker substrings, in the source's branch
order.  `linha_erro` is 1-based (the embedding assumes `1 ≤ linha_erro`, as
Python `SyntaxError.lineno` guarantees). -/
def identificar_componente (linhas : List String) (linha_erro : Nat) : String × String :=
  let linha_atual := linha_erro - 1
  let linha_atual_str := pyStrip (linhas.getD linha_atual "")
  let window := (linhas.drop (linha_atual - 5)).take
    (min linhas.length (linha_atual + 5) - (linha_atual - 5))
  let componente :=
    if strHas (pyJoin "" window) "_run" then "Método _run"
    else if strHas linha_atual_str "class" &&
        (strHas linha_atual_str "Tool" || strHas linha_atual_str "BaseTool") then
      "Herança de Classe"
    else if strHas linha_atual_str "BaseModel" ||
        window.any (fun l => strHas l "Field(") then "Schema de Entrada"
    else if strHas linha_atual_str "name" || strHas linha_atual_str "description" ||
        strHas linha_atual_str "args_schema" then "Atributos da Classe"
    else if strHas (pyLower linha_atual_str) "import" ||
        strHas (pyLower linha_atual_str) "from" then "Imports"
    else if strHas linha_atual_str "def" && !(strHas linha_atual_str "_run") then
      "Métodos Customizados"
    else "Estrutura Python"
  (componente, mapeamentoComponentes componente)

/-- Lines 222-225: `contexto = linhas[max(0, e.lineno-3) : min(len, e.lineno+2)]`
(Nat subtraction models the `max(0, ...)` clamp). -/
def syntaxContexto (linhas : List String) (ln : Nat) : List String :=
  (linhas.drop (ln - 3)).take (min linhas.length (ln + 2) - (ln - 3))

/-- Lines 242-244: the stripped error line, truncated to 30 characters
(`linha[:27] + "..."`) when longer. -/
def snippetLine (linhas : List String) (ln : Nat) : String :=
  let linha0 := pyStrip ((syntaxContexto linhas ln).getD (ln - (ln - 3) - 1) "")
  if 30 < pyLen linha0 then pyTake linha0 27 ++ "..." else linha0

/-- Lines 248-255: the pattern-matched suggestion. -/
def sugestaoFor (msg : String) : String :=
  if msg = "expected \x27:\x27" then
    "Sugestão: Adicione dois pontos (:) ao final da linha"
  else if strHas msg "unexpected EOF" then
    "Sugestão: Verifique parênteses/colchetes não fechados"
  else if strHas msg "unexpected indent" then
    "Sugestão: Corrija a indentação da linha"
  else "Sugestão: Verifique a sintaxe Python na linha"

/-- The `except SyntaxError` branch of `_verify_ast` (lines 220-257): context
slice, component attribution, then up to FOUR separate `add_error` calls —
the line/message error, the component error, the truncated code snippet, and
the pattern-matched suggestion (the latter two only when the error line falls
inside the context window). -/
def verify_ast_syn_branch (linhas : List String) (ln : Nat) (msg : String)
    (res : AnalysisResult) : AnalysisResult :=
  let contexto := syntaxContexto linhas ln
  let res1 := add_error res ("Erro de sintaxe na linha " ++ toString ln ++ ": " ++ msg)
    Option.none
  let res2 := add_error res1
    ("Componente: " ++ (identificar_componente linhas ln).1) Option.none
  if contexto.isEmpty = false ∧ ln - (ln - 3) - 1 < contexto.length then
    add_error (add_error res2 ("Código: " ++ snippetLine linhas ln) Option.none)
      (sugestaoFor msg) Option.none
  else res2

/-! ## The verifier's structural walk
(`ast.walk` is breadth-first; `_verify_ast` lines 262-317 takes the first
`ClassDef` whose name ends with "Tool") -/

/-- The child statements `ast.walk` enqueues for one node, at `PyStmt`
granularity. -/
def stmtChildren : PyStmt → List PyStmt
  | PyStmt.funcDef _ body => body
  | PyStmt.classDef _ _ body => body
  | PyStmt.ifStmt body orelse => body ++ orelse
  | _ => []

/-- A size measure for statement forests (the auto-derived `sizeOf` of the
nested inductive is not executable). -/
def stmtsSize : List PyStmt → Nat
  | [] => 0
  | PyStmt.funcDef _ body :: t => 1 + stmtsSize body + stmtsSize t
  | PyStmt.classDef _ _ body :: t => 1 + stmtsSize body + stmtsSize t
  | PyStmt.ifStmt body orelse :: t => 1 + stmtsSize body + stmtsSize orelse + stmtsSize t
  | _ :: t => 1 + stmtsSize t

theorem stmtsSize_append (a b : List PyStmt) :
    stmtsSize (a ++ b) = stmtsSize a + stmtsSize b := by
  induction a with
  | nil => simp [stmtsSize]
  | cons s t ih =>
    cases s <;> simp only [List.cons_append, stmtsSize, ih] <;> omega

/-- The next BFS level: the concatenated children of a queue. -/
def childrenQueue : List PyStmt → List PyStmt
  | [] => []
  | s :: t => stmtChildren s ++ childrenQueue t

theorem stmtChildren_size_lt (s : PyStmt) :
    stmtsSize (stmtChildren s) < stmtsSize [s] := by
  cases s <;> simp [stmtChildren, stmtsSize, stmtsSize_append] <;> omega

theorem childrenQueue_le (q : List PyStmt) : stmtsSize (childrenQueue q) ≤ stmtsSize q := by
  induction q with
  | nil => exact Nat.le_refl _
  | cons s t ih =>
    have h := stmtChildren_size_lt s
    simp only [childrenQueue, stmtsSize_append] at *
    cases s <;> simp [stmtsSize] at h ⊢ <;> omega

theorem childrenQueue_lt (q : List PyStmt) (h : q ≠ []) :
    stmtsSize (childrenQueue q) < stmtsSize q := by
  cases q with
  | nil => exact absurd rfl h
  | cons s t =>
    have h1 := stmtChildren_size_lt s
    have h2 := childrenQueue_le t
    simp only [childrenQueue, stmtsSize_append] at *
    cases s <;> simp [stmtsSize] at h1 ⊢ <;> omega

/-- `ast.walk` order: the queue, then its children level by level
(breadth-first). -/
def bfsWalk (queue : List PyStmt) : List PyStmt :=
  match queue with
  | [] => []
  | a :: rest => (a :: rest) ++ bfsWalk (childrenQueue (a :: rest))
termination_by stmtsSize queue
decreasing_by exact childrenQueue_lt _ (by simp)

/-- Line 265: `isinstance(node, ast.ClassDef) and node.name.endswith("Tool")`. -/
def isToolClassStmt : PyStmt → Bool
  | PyStmt.classDef n _ _ => strEnds n "Tool"
  | _ => false

/-- Line 287: the search for a `FunctionDef` named `_run` in the class body. -/
def hasRunDef (body : List PyStmt) : Bool :=
  body.any (fun s =>
    match s with
    | PyStmt.funcDef nm _ => nm = "_run"
    | _ => false)

/-- The structural half of `_verify_ast` (lines 262-317), run after a
successful parse: find the first class ending with "Tool" in walk order,
record it, warn when `BaseTool` is not among its (plain-name) bases, add a
fatal diagnostic when no `_run` method is in its body; fatal (and `False`)
when no such class exists. -/
def verify_ast_walk (m : GenModule) (res : AnalysisResult) : AnalysisResult × Bool :=
  match (bfsWalk m.topLevel).find? isToolClassStmt with
  | Option.some (PyStmt.classDef n bases body) =>
    let res1 := { add_info res ("Classe AST encontrada: " ++ n) with
      tool_class_name := Option.some n }
    let res2 :=
      if bases.contains "BaseTool" = false then
        add_warning res1 ("AVISO DE HERANÇA\n" ++ dashes 20 ++ "\nClasse: " ++ n ++
          "\nProblema: Não herda diretamente de \x27BaseTool\x27\nAção: Verifique se a classe herda corretamente de \x27BaseTool\x27\nExemplo:\nclass MinhaFerramenta(BaseTool):\n    ...")
          Option.none
      else add_info res1 "Herança de BaseTool verificada na AST."
    let res3 :=
      if hasRunDef body = false then
        add_error res2 ("ERRO NO MÉTODO _run\n" ++ dashes 20 ++ "\nClasse: " ++ n ++
          "\nProblema: Método \x27_run\x27 não encontrado\nAção: Adicione o método \x27_run\x27 à classe\nExemplo:\n    def _run(self, param1: str, param2: int = 0) -> dict:\n        return \x7b\x27resultado\x27: \x27processado\x27\x7d")
          Option.none
      else add_info res2 "Método \x27_run\x27 encontrado na AST."
    (res3, true)
  | _ =>
    (add_error res ("ERRO NA ESTRUTURA DA CLASSE\n" ++ dashes 20 ++
      "\nProblema: Nenhuma classe terminando com \x27Tool\x27 foi encontrada\nAção: Crie uma classe que herde de BaseTool e termine com \x27Tool\x27\nExemplo:\nclass MinhaFerramenta(BaseTool):\n    name = \x27Minha Ferramenta\x27\n    description = \x27Descrição da ferramenta\x27")
      Option.none, false)

/-! ## The verifier's dynamic stages, driven by runtime oracles -/

/-- Outcome of `args_schema.model_json_schema()` when it returns:
whether `'properties'` is present. -/
structure SchemaBehavior where
  hasProps : Bool

/-- The runtime behavior of the dynamic stages 4-7: spec creation, top-level
module execution, reflective class lookup, `_run` callability, zero-argument
construction, and the schema introspection call. -/
structure DynOracle where
  specOk : Bool
  execOutcome : Option String
  classFound : Bool
  runCallable : Bool
  inst : Except String InstInfo
  schemaJson : Except String SchemaBehavior

/-- `ToolVerifierTool._verify_import_and_inspect` (lines 386-449), diagnostics
only (its `sys.path` effect is `verifier_sys_path`).  `stem` is
`tool_path.stem`. -/
def verify_import_inspect (stem : String) (res : AnalysisResult) (dyn : DynOracle) :
    AnalysisResult :=
  match res.tool_class_name with
  | Option.none =>
    add_warning res "Importação pulada: Nenhuma classe de ferramenta foi encontrada na AST."
      Option.none
  | Option.some cname =>
    let res0 := add_info res ("Tentando importar dinamicamente o módulo: " ++ stem)
    if dyn.specOk = false then
      add_error res0 ("Falha ao criar spec de importação para " ++ stem ++ ".") Option.none
    else
      match dyn.execOutcome with
      | Option.some e =>
        add_error res0 ("Erro durante a execução do código do módulo (nível superior): " ++ e)
          Option.none
      | Option.none =>
        let res1 := add_info res0 "Módulo importado com sucesso."
        if dyn.classFound = false then
          add_error res1 ("Classe \x27" ++ cname ++
            "\x27 (encontrada na AST) não foi encontrada no módulo importado.") Option.none
        else
          let res2 := { add_info res1 ("Encontrada classe \x27" ++ cname ++
            "\x27 herdando de BaseTool.") with hasToolClass := true }
          if dyn.runCallable = false then
            add_error res2 ("Método \x27_run\x27 não encontrado ou não é chamável na classe \x27"
              ++ cname ++ "\x27 carregada.") Option.none
          else add_info res2 "Método \x27_run\x27 encontrado e chamável via inspeção."

/-- `ToolVerifierTool._verify_args_schema` (lines 485-511), on the
constructed instance. -/
def verify_args_schema (res : AnalysisResult) (i : InstInfo)
    (schemaJson : Except String SchemaBehavior) : AnalysisResult :=
  if i.hasArgsSchema = false || i.argsSchemaIsModel = false then
    if (res.errors.any (fun e => strHas e "args_schema")) = false then
      add_warning res
        "Atributo \x27args_schema\x27 na instância é inesperadamente inválido apesar de ter passado na verificação inicial."
        Option.none
    else res
  else
    let res1 := add_info res ("Verificando a validade do Pydantic Model: " ++ i.argsSchemaName)
    match schemaJson with
    | Except.error e =>
      add_error res1 ("Erro ao validar o Pydantic Model \x27" ++ i.argsSchemaName ++ "\x27: " ++ e)
        Option.none
    | Except.ok sb =>
      if sb.hasProps = false then
        add_warning res1 ("O schema Pydantic \x27" ++ i.argsSchemaName ++
          "\x27 parece vazio ou inválido (sem propriedades definidas).") Option.none
      else add_info res1 ("Schema Pydantic \x27" ++ i.argsSchemaName ++ "\x27 parece válido.")

/-- What the verifier's parse stage sees when it reads the artifact: either a
`SyntaxError` (with the source lines, 1-based line number and message) or the
parsed module. -/
inductive ArtifactView where
  | parseFails (lines : List String) (lineno : Nat) (msg : String)
  | parses (m : GenModule)

/-- `ToolVerifierTool.run` (lines 142-200): the staged pipeline.  `existsB`
and `isPyB` are the stage-1 oracle (`path.exists()` and
`is_file() and suffix == '.py'`); `art` is what `ast.parse` yields; `dyn`
drives stages 4-7. -/
def verifier_run (tool_path : String) (existsB isPyB : Bool) (art : ArtifactView)
    (dyn : DynOracle) : ResultDict :=
  let res := add_info emptyResult ("Iniciando verificação para: " ++ tool_path)
  if existsB = false then
    build_result_dict tool_path
      (add_error res ("Arquivo não encontrado: " ++ tool_path) Option.none)
  else if isPyB = false then
    build_result_dict tool_path
      (add_error res ("O caminho fornecido não é um arquivo .py válido: " ++ tool_path)
        Option.none)
  else
    let resA := add_info res "Analisando AST para erros de sintaxe e estrutura"
    match art with
    | ArtifactView.parseFails lines ln msg =>
      build_result_dict tool_path (verify_ast_syn_branch lines ln msg resA)
    | ArtifactView.parses m =>
      let resB := add_info resA "Sintaxe do arquivo Python válida"
      match verify_ast_walk m resB with
      | (res1, false) => build_result_dict tool_path res1
      | (res1, true) =>
        let res2 := verify_import_inspect tool_path res1 dyn
        let res3 := if res2.hasToolClass then verify_instance res2 dyn.inst else res2
        let res4 :=
          if res3.hasInstance then
            match dyn.inst with
            | Except.ok i => verify_args_schema res3 i dyn.schemaJson
            | Except.error _ => res3
          else
            add_warning res3
              "Verificação do args_schema pulada pois a instância da ferramenta não pôde ser criada."
              Option.none
        let res5 :=
          if res4.errors.isEmpty && res4.warnings.isEmpty then
            add_info res4 "Verificação concluída sem erros ou avisos críticos."
          else if res4.errors.isEmpty then
            add_warning res4 "Verificação concluída com avisos." Option.none
          else add_error res4 "Verificação concluída com erros críticos." Option.none
        build_result_dict tool_path (add_info res5 ("Verificação finalizada para: " ++ tool_path))

/-! ## C7: diagnostics on a parse failure -/

theorem verify_ast_synbranch_spec (linhas : List String) (ln : Nat) (msg : String)
    (res : AnalysisResult) (h1 : 1 ≤ ln) (h2 : ln ≤ linhas.length) :
    (verify_ast_syn_branch linhas ln msg res).errors =
      res.errors ++
        ["ERRO: " ++ ("Erro de sintaxe na linha " ++ toString ln ++ ": " ++ msg),
         "ERRO: " ++ ("Componente: " ++ (identificar_componente linhas ln).1),
         "ERRO: " ++ ("Código: " ++ snippetLine linhas ln),
         "ERRO: " ++ sugestaoFor msg] ∧
    (verify_ast_syn_branch linhas ln msg res).warnings = res.warnings := by
  have hlen : (syntaxContexto linhas ln).length =
      min linhas.length (ln + 2) - (ln - 3) := by
    unfold syntaxContexto
    rw [List.length_take, List.length_drop]
    omega
  have hne : syntaxContexto linhas ln ≠ [] := by
    intro hc
    rw [hc] at hlen
    simp only [List.length_nil] at hlen
    omega
  have hie : (syntaxContexto linhas ln).isEmpty = false := by
    cases hb : (syntaxContexto linhas ln).isEmpty with
    | false => rfl
    | true => exact absurd (List.isEmpty_iff.mp hb) hne
  have hidx : ln - (ln - 3) - 1 < (syntaxContexto linhas ln).length := by
    rw [hlen]
    omega
  constructor
  · show (verify_ast_syn_branch linhas ln msg res).errors = _
    unfold verify_ast_syn_branch
    rw [if_pos ⟨hie, hidx⟩]
    simp [add_error, List.append_assoc]
  · unfold verify_ast_syn_branch
    rw [if_pos ⟨hie, hidx⟩]
    simp [add_error]

/-- The source line used by C7's counterexample: 48 characters long. -/
def c7Line : String := "class VeryLongNameForTheToolClassXTool(BaseTool)"

/-- C7: at an artifact whose class header misses its colon on line 1, the
parse stage emits FOUR fatal diagnostic entries, not exactly one; and none of
them contains the full 48-character text of the offending line (the snippet
is truncated to `linha[:27] + "..."`). -/
theorem C7_counterexample :
    (verify_ast_syn_branch [c7Line, "    pass"] 1 "expected \x27:\x27" emptyResult).errors.length
      = 4 ∧
    ¬ (verify_ast_syn_branch [c7Line, "    pass"] 1 "expected \x27:\x27" emptyResult).errors.length
      = 1 ∧
    ((verify_ast_syn_branch [c7Line, "    pass"] 1 "expected \x27:\x27" emptyResult).errors.all
      (fun e => !(strHas e c7Line))) = true := by
  refine ⟨by decide, by decide, by decide⟩

/-- C7 (amended): on a parse failure the verifier emits four fatal entries —
one carrying the error's line number and message, one the attributed
component, one the stripped error-line snippet truncated to 30 characters,
and one the pattern-matched suggestion — `warnings` untouched; and the
pipeline stops: whatever the dynamic oracles, the whole report contains
exactly those four fatal diagnostics. -/
theorem C7_thm (linhas : List String) (ln : Nat) (msg : String)
    (res : AnalysisResult) (h1 : 1 ≤ ln) (h2 : ln ≤ linhas.length) :
    (∃ e1 e2 e3 e4 : String,
      (verify_ast_syn_branch linhas ln msg res).errors = res.errors ++ [e1, e2, e3, e4] ∧
      strHas e1 (toString ln) = true ∧
      strHas e1 msg = true ∧
      e3 = "ERRO: " ++ ("Código: " ++ snippetLine linhas ln) ∧
      e4 = "ERRO: " ++ sugestaoFor msg) ∧
    (verify_ast_syn_branch linhas ln msg res).warnings = res.warnings ∧
    (∀ (tp : String) (dyn : DynOracle),
      (verifier_run tp true true (ArtifactView.parseFails linhas ln msg) dyn).erros.length
        = 4) := by
  obtain ⟨herr, hwarn⟩ := verify_ast_synbranch_spec linhas ln msg res h1 h2
  refine ⟨⟨_, _, _, _, herr, ?_, ?_, rfl, rfl⟩, hwarn, ?_⟩
  · show strHas ("ERRO: " ++ ("Erro de sintaxe na linha " ++ toString ln ++ ": " ++ msg))
      (toString ln) = true
    apply strHas_append_right
    apply strHas_append_left
    apply strHas_append_left
    exact strHas_append_right_self _ (toString ln)
  · apply strHas_append_right
    exact strHas_append_right_self _ msg
  · intro tp dyn
    show (build_result_dict tp
      (verify_ast_syn_branch linhas ln msg
        (add_info (add_info emptyResult ("Iniciando verificação para: " ++ tp))
          "Analisando AST para erros de sintaxe e estrutura"))).erros.length = 4
    obtain ⟨herr', _⟩ := verify_ast_synbranch_spec linhas ln msg
      (add_info (add_info emptyResult ("Iniciando verificação para: " ++ tp))
        "Analisando AST para erros de sintaxe e estrutura") h1 h2
    show (verify_ast_syn_branch linhas ln msg _).errors.length = 4
    rw [herr']
    rfl

/-- Witness for C7_thm at the concrete broken class header. -/
theorem C7_witness :
    (1 ≤ 1 ∧ 1 ≤ ([c7Line, "    pass"] : List String).length) ∧
    (verify_ast_syn_branch [c7Line, "    pass"] 1 "foo" emptyResult).warnings =
      emptyResult.warnings :=
  ⟨⟨Nat.le_refl 1, by decide⟩,
   (C7_thm [c7Line, "    pass"] 1 "foo" emptyResult (Nat.le_refl 1) (by decide)).2.1⟩

/-! ## C1: the synthesis → verification round trip -/

theorem strData_append (a b : String) : (a ++ b).data = a.data ++ b.data := by
  cases a
  cases b
  rfl

theorem find?_append_some {α : Type} (p : α → Bool) (l₁ l₂ : List α) (x : α)
    (h : l₁.find? p = Option.some x) : (l₁ ++ l₂).find? p = Option.some x := by
  induction l₁ with
  | nil => cases h
  | cons a t ih =>
    cases hp : p a with
    | true =>
      rw [List.find?_cons_of_pos _ hp] at h
      rw [List.cons_append, List.find?_cons_of_pos _ hp]
      exact h
    | false =>
      rw [List.find?_cons_of_neg _ (by simp [hp])] at h
      rw [List.cons_append, List.find?_cons_of_neg _ (by simp [hp])]
      exact ih h

/-- `find?` over a prefix on which the predicate is everywhere false, then a
hit. -/
theorem find_first_tool (P rest : List PyStmt) (tc : PyStmt)
    (hP : ∀ s ∈ P, isToolClassStmt s = false) (htc : isToolClassStmt tc = true) :
    (P ++ tc :: rest).find? isToolClassStmt = Option.some tc := by
  induction P with
  | nil =>
    rw [List.nil_append]
    exact List.find?_cons_of_pos _ htc
  | cons a t ih =>
    have ha := hP a (List.mem_cons_self _ _)
    rw [List.cons_append, List.find?_cons_of_neg _ (by simp [ha])]
    exact ih (fun s hs => hP s (List.mem_cons_of_mem _ hs))

theorem bfsWalk_ne (q : List PyStmt) (h : q ≠ []) :
    bfsWalk q = q ++ bfsWalk (childrenQueue q) := by
  cases q with
  | nil => exact absurd rfl h
  | cons a rest => rw [bfsWalk.eq_def]

theorem memB_append (x : String) (a b : List String) :
    memB x (a ++ b) = (memB x a || memB x b) := by
  induction a with
  | nil => simp [memB]
  | cons c t ih => simp [memB, ih, Bool.or_assoc]

theorem writeFile_mem_self (fs : FsState) (p : String) :
    memB p (writeFile fs p).files = true := by
  unfold writeFile
  split
  · next h => exact h
  · show memB p (fs.files ++ [p]) = true
    rw [memB_append]
    simp [memB]

theorem writeFile_mem_mono (fs : FsState) (p q : String)
    (h : memB p fs.files = true) : memB p (writeFile fs q).files = true := by
  unfold writeFile
  split
  · exact h
  · show memB p (fs.files ++ [q]) = true
    rw [memB_append, h]
    rfl

/-- A user-supplied import fragment whose first parsed statement is an
an import statement (rather than an arbitrary other statement form, which
Python would equally accept as "import" text). -/
def Fragment.isImportLike (f : Fragment) : Bool :=
  match fragmentStmt f with
  | PyStmt.importStmt _ => true
  | _ => false

theorem dedupImportsAux_sub (l : List Fragment) (seen : List (List String)) :
    ∀ x ∈ dedupImportsAux l seen, x ∈ l := by
  induction l generalizing seen with
  | nil => intro x hx; cases hx
  | cons i rest ih =>
    intro x hx
    unfold dedupImportsAux at hx
    split at hx
    · exact List.mem_cons_of_mem _ (ih _ x hx)
    · rcases List.mem_cons.mp hx with rfl | hx'
      · exact List.mem_cons_self _ _
      · exact List.mem_cons_of_mem _ (ih _ x hx')

/-! ### The modelled parse boundary -/

/-- Python keywords (an identifier position may not hold one). -/
def pyKeywords : List String :=
  ["False", "None", "True", "and", "as", "assert", "async", "await", "break",
   "class", "continue", "def", "del", "elif", "else", "except", "finally",
   "for", "from", "global", "if", "import", "in", "is", "lambda", "nonlocal",
   "not", "or", "pass", "raise", "return", "try", "while", "with", "yield"]

def isPyIdentStart (c : Char) : Bool := c.isAlpha || c = '_'

def isPyIdentChar (c : Char) : Bool := c.isAlphanum || c = '_'

/-- ASCII Python identifier validity. -/
def isPyIdent (s : String) : Bool :=
  match s.data with
  | [] => false
  | c :: rest => isPyIdentStart c && rest.all isPyIdentChar && !(pyKeywords.contains s)

/-- `from ... import *` is the one statement form that parses at module level
but is a `SyntaxError` inside a `def` body. -/
def noImportStar (stmts : List PyStmt) : Bool :=
  stmts.all (fun s =>
    match s with
    | PyStmt.importStar _ => false
    | _ => true)

/-- Modelled runtime boundary (astor.to_source → write → the verifier's
`ast.parse` of the written file): the emitted source re-parses exactly when
every identifier the builder splices in verbatim — the class names derived
from `name.replace(' ', '')` and the parameter names, all emitted as raw
identifier tokens — is a valid Python identifier, and no statement of the
(module-level-parsed) implementation fragment is illegal inside the generated
`_run` body. -/
def generatedSourceParses (td : ToolDefn) : Bool :=
  isPyIdent (cleanName td.name ++ "Tool") &&
  (td.parameters.isEmpty || isPyIdent (cleanName td.name ++ "Parameters")) &&
  td.parameters.all (fun p => isPyIdent p.name) &&
  noImportStar (implStmts td)

/-- What the verifier's parse stage sees on the synthesized artifact: the
structured module when the emitted source re-parses, otherwise the concrete
`SyntaxError` data the runtime reports (supplied as parameters — it is not
derivable shallowly). -/
def synthParseView (td : ToolDefn) (flLines : List String) (flLn : Nat)
    (flMsg : String) : ArtifactView :=
  if generatedSourceParses td then ArtifactView.parses (buildToolModule td)
  else ArtifactView.parseFails flLines flLn flMsg

/-! ### The structural stage on a generated module -/

theorem prefix_no_toolclass (td : ToolDefn)
    (himp : ∀ f ∈ td.imports, f.isImportLike = true) :
    ∀ s ∈ ((dedupImports (stdImportFragments ++ td.imports)).map fragmentStmt ++
      [PyStmt.exprStmt, PyStmt.assign "DESCRIPTIONS", PyStmt.exprStmt,
        PyStmt.funcDef "get_description" [PyStmt.exprStmt, PyStmt.ret]] ++
      (if td.parameters.isEmpty then [] else
        [PyStmt.classDef (cleanName td.name ++ "Parameters") ["BaseModel"]
          (PyStmt.exprStmt :: td.parameters.map (fun p => PyStmt.annAssign p.name))])),
      isToolClassStmt s = false := by
  intro s hs
  rcases List.mem_append.mp hs with hs' | hs'
  · rcases List.mem_append.mp hs' with hs'' | hs''
    · rcases List.mem_map.mp hs'' with ⟨f, hf, rfl⟩
      have hf' := dedupImportsAux_sub _ _ f hf
      rcases List.mem_append.mp hf' with hstd | huser
      · simp only [stdImportFragments, List.mem_cons, List.mem_singleton] at hstd
        rcases hstd with rfl | rfl | rfl | h
        · rfl
        · rfl
        · rfl
        · cases h
      · have hil := himp f huser
        unfold Fragment.isImportLike at hil
        cases hfs : fragmentStmt f <;> simp_all [isToolClassStmt]
    · simp only [List.mem_cons, List.mem_singleton] at hs''
      rcases hs'' with rfl | rfl | rfl | rfl | h
      · rfl
      · rfl
      · rfl
      · rfl
      · cases h
  · by_cases hp : td.parameters.isEmpty
    · rw [if_pos hp] at hs'
      cases hs'
    · rw [if_neg hp] at hs'
      rcases List.mem_singleton.mp hs' with rfl
      show strEnds (cleanName td.name ++ "Parameters") "Tool" = false
      rw [strEnds_append _ _ _ (by decide)]
      decide

theorem find_tool_class (td : ToolDefn)
    (himp : ∀ f ∈ td.imports, f.isImportLike = true) :
    (bfsWalk (buildToolModule td).topLevel).find? isToolClassStmt =
      Option.some (PyStmt.classDef (cleanName td.name ++ "Tool") ["BaseTool"]
        (toolClassBody td)) := by
  have htc : isToolClassStmt (PyStmt.classDef (cleanName td.name ++ "Tool") ["BaseTool"]
      (toolClassBody td)) = true := by
    show strEnds (cleanName td.name ++ "Tool") "Tool" = true
    exact strEnds_self_append _ _
  have hne : (buildToolModule td).topLevel ≠ [] := by
    unfold buildToolModule
    intro h
    have := congrArg List.length h
    simp [List.length_append] at this
  rw [bfsWalk_ne _ hne]
  show ((_ ++ [PyStmt.classDef _ _ _, PyStmt.ifStmt _ _]) ++ _).find? _ = _
  rw [List.append_assoc, List.cons_append, List.cons_append, List.nil_append]
  exact find_first_tool _ _ _ (prefix_no_toolclass td himp) htc

/-- The accumulator after the structural walk succeeds on a generated
module. -/
def walkResult (td : ToolDefn) (res : AnalysisResult) : AnalysisResult :=
  add_info (add_info
    ({ add_info res ("Classe AST encontrada: " ++ (cleanName td.name ++ "Tool")) with
       tool_class_name := Option.some (cleanName td.name ++ "Tool") })
    "Herança de BaseTool verificada na AST.")
    "Método \x27_run\x27 encontrado na AST."

theorem walk_generated_eq (td : ToolDefn) (res : AnalysisResult)
    (himp : ∀ f ∈ td.imports, f.isImportLike = true) :
    verify_ast_walk (buildToolModule td) res = (walkResult td res, true) := by
  unfold verify_ast_walk
  rw [find_tool_class td himp]
  have hrun : hasRunDef (toolClassBody td) = true := by
    unfold hasRunDef toolClassBody
    simp [List.any_append]
  have hb : (["BaseTool"] : List String).contains "BaseTool" = true := by decide
  simp only [hb, hrun]
  rfl

/-! ### The dynamic stages on a well-behaved runtime -/

/-- The accumulator after a clean import/inspect stage. -/
def inspectResult (stem : String) (res : AnalysisResult) (cname : String) :
    AnalysisResult :=
  add_info
    ({ add_info (add_info (add_info res
        ("Tentando importar dinamicamente o módulo: " ++ stem))
        "Módulo importado com sucesso.")
        ("Encontrada classe \x27" ++ cname ++ "\x27 herdando de BaseTool.") with
      hasToolClass := true })
    "Método \x27_run\x27 encontrado e chamável via inspeção."

theorem inspect_good (stem : String) (res : AnalysisResult) (dyn : DynOracle)
    (cname : String) (hcn : res.tool_class_name = Option.some cname)
    (hspec : dyn.specOk = true) (hexec : dyn.execOutcome = Option.none)
    (hcf : dyn.classFound = true) (hrc : dyn.runCallable = true) :
    verify_import_inspect stem res dyn = inspectResult stem res cname := by
  unfold verify_import_inspect inspectResult
  rw [hcn, hexec]
  simp [hspec, hcf, hrc]

/-- The accumulator after a clean instantiation stage. -/
def instanceResult (res : AnalysisResult) (i : InstInfo) : AnalysisResult :=
  add_info (add_info (add_info
    ({ add_info (add_info res
        ("Tentando instanciar \x27" ++ optStr res.tool_class_name ++ "\x27..."))
        "Instanciação da ferramenta bem-sucedida." with
      hasInstance := true })
    ("Atributo \x27name\x27 encontrado na instância: \x27" ++ i.nameValue ++ "\x27."))
    "Atributo \x27description\x27 encontrado na instância.")
    ("Atributo \x27args_schema\x27 encontrado na instância: " ++ i.argsSchemaName ++ ".")

theorem instance_good (res : AnalysisResult) (i : InstInfo)
    (hTC : res.hasToolClass = true) (hn : i.nameIsStr = true) (hd : i.descIsStr = true)
    (ha : i.hasArgsSchema = true) (hm : i.argsSchemaIsModel = true) :
    verify_instance res (Except.ok i) = instanceResult res i := by
  unfold verify_instance instanceResult
  simp [hTC, hn, hd, ha, hm]

theorem schema_good_errors (res : AnalysisResult) (i : InstInfo) (sb : SchemaBehavior)
    (ha : i.hasArgsSchema = true) (hm : i.argsSchemaIsModel = true) :
    (verify_args_schema res i (Except.ok sb)).errors = res.errors := by
  unfold verify_args_schema
  simp only [ha, hm]
  cases hsb : sb.hasProps <;> simp [hsb, add_info, add_warning]

/-! ### Field bookkeeping for the composed pipeline -/

theorem walkResult_fields (td : ToolDefn) (res : AnalysisResult) :
    (walkResult td res).errors = res.errors ∧
    (walkResult td res).warnings = res.warnings ∧
    (walkResult td res).tool_class_name = Option.some (cleanName td.name ++ "Tool") ∧
    (walkResult td res).hasToolClass = res.hasToolClass ∧
    (walkResult td res).hasInstance = res.hasInstance :=
  ⟨rfl, rfl, rfl, rfl, rfl⟩

theorem inspectResult_fields (stem : String) (res : AnalysisResult) (cname : String) :
    (inspectResult stem res cname).errors = res.errors ∧
    (inspectResult stem res cname).warnings = res.warnings ∧
    (inspectResult stem res cname).tool_class_name = res.tool_class_name ∧
    (inspectResult stem res cname).hasToolClass = true ∧
    (inspectResult stem res cname).hasInstance = res.hasInstance :=
  ⟨rfl, rfl, rfl, rfl, rfl⟩

theorem instanceResult_fields (res : AnalysisResult) (i : InstInfo) :
    (instanceResult res i).errors = res.errors ∧
    (instanceResult res i).warnings = res.warnings ∧
    (instanceResult res i).hasInstance = true :=
  ⟨rfl, rfl, rfl⟩

/-- The closing lines 188-200 of `run` never introduce the first fatal
diagnostic: when the accumulated fatal list is empty, the final report has no
fatal diagnostics and `sucesso = true`. -/
theorem final_tail_result (res : AnalysisResult) (tp : String)
    (h : res.errors = []) :
    (build_result_dict tp (add_info
      (if res.errors.isEmpty && res.warnings.isEmpty then
        add_info res "Verificação concluída sem erros ou avisos críticos."
      else if res.errors.isEmpty then
        add_warning res "Verificação concluída com avisos." Option.none
      else add_error res "Verificação concluída com erros críticos." Option.none)
      ("Verificação finalizada para: " ++ tp))).erros = [] ∧
    (build_result_dict tp (add_info
      (if res.errors.isEmpty && res.warnings.isEmpty then
        add_info res "Verificação concluída sem erros ou avisos críticos."
      else if res.errors.isEmpty then
        add_warning res "Verificação concluída com avisos." Option.none
      else add_error res "Verificação concluída com erros críticos." Option.none)
      ("Verificação finalizada para: " ++ tp))).sucesso = true := by
  have hie : res.errors.isEmpty = true := by rw [h]; rfl
  cases hw : res.warnings.isEmpty <;>
    simp [build_result_dict, hie, hw, add_info, add_warning, add_error, h]

/-! ### The amended round trip -/

/-- C1 (amended): for every specification that is valid in the claim's sense
(fragments parse, no no-op auxiliary method) and whose spliced identifiers
form valid Python identifiers (with imports that really are import
statements), synthesis writes the artifact at the derived `.py` path, the
written source re-parses, the verifier's static stages detect the
`<CleanName>Tool` class with its `_run` method and emit no fatal diagnostic,
and — whenever the dynamic stages (module execution, class lookup,
zero-argument construction, schema introspection, all dependent on the
runtime environment rather than on the specification) raise nothing — the
report has `success = true` with zero fatal diagnostics. -/
theorem C1_thm (fs : FsState) (td : ToolDefn) (dyn : DynOracle)
    (i : InstInfo) (sb : SchemaBehavior)
    (hvaz : verificar_metodos_vazios td.custom_methods = [])
    (himpok : td.implementation.isParsedB = true)
    (hcmok : firstCustomError td.custom_methods = Option.none)
    (himps : firstCustomError td.imports = Option.none)
    (hparse : generatedSourceParses td = true)
    (himpLike : ∀ f ∈ td.imports, f.isImportLike = true)
    (hspec : dyn.specOk = true) (hexec : dyn.execOutcome = Option.none)
    (hcf : dyn.classFound = true) (hrc : dyn.runCallable = true)
    (hinst : dyn.inst = Except.ok i)
    (hn : i.nameIsStr = true) (hd : i.descIsStr = true)
    (ha : i.hasArgsSchema = true) (hm : i.argsSchemaIsModel = true)
    (hsj : dyn.schemaJson = Except.ok sb) :
    (creator_run fs td).2 =
      CreatorRes.wrote (tool_file_path td.name) (buildToolModule td) ∧
    fileExists (creator_run fs td).1 (tool_file_path td.name) = true ∧
    strEnds (tool_file_path td.name) ".py" = true ∧
    (∀ (flLines : List String) (flLn : Nat) (flMsg : String),
      synthParseView td flLines flLn flMsg =
        ArtifactView.parses (buildToolModule td)) ∧
    (verifier_run (tool_file_path td.name) true true
      (ArtifactView.parses (buildToolModule td)) dyn).erros = [] ∧
    (verifier_run (tool_file_path td.name) true true
      (ArtifactView.parses (buildToolModule td)) dyn).sucesso = true := by
  obtain ⟨stmts, himpl⟩ : ∃ s, td.implementation.outcome = ParseOutcome.parsed s := by
    unfold Fragment.isParsedB at himpok
    cases ho : td.implementation.outcome with
    | parsed s => exact ⟨s, rfl⟩
    | syntaxError a b c => rw [ho] at himpok; cases himpok
  have hcheck : create_tool_class_check td.name (td.parameters.map (·.name))
      td.custom_methods td.implementation = Except.ok stmts := by
    unfold create_tool_class_check create_run_method_check
    rw [hcmok, himpl]
  have hrunC : creator_run fs td =
      (let fs2 := writeFile (mkdirP fs (tools_dir_path td.name)) (tool_file_path td.name)
       let initPath := tools_dir_path td.name ++ "/__init__.py"
       if fileExists fs2 initPath then fs2 else writeFile fs2 initPath,
       CreatorRes.wrote (tool_file_path td.name) (buildToolModule td)) := by
    unfold creator_run
    rw [hvaz, himps, hcheck]
    rfl
  have hsuffix : strEnds (tool_file_path td.name) ".py" = true := by
    unfold tool_file_path
    rw [strEnds_append _ _ _ ?hlen]
    case hlen =>
      show ((".py" : String)).data.length ≤ (tool_file_name td.name).data.length
      unfold tool_file_name
      rw [strData_append, List.length_append]
      have h8 : (("_tool.py" : String)).data.length = 8 := by decide
      have h3 : ((".py" : String)).data.length = 3 := by decide
      omega
    unfold tool_file_name
    rw [strEnds_append _ _ _ (by decide)]
    decide
  -- the verifier side
  have hwalk := walk_generated_eq td
    (add_info (add_info
      (add_info emptyResult ("Iniciando verificação para: " ++ tool_file_path td.name))
      "Analisando AST para erros de sintaxe e estrutura")
      "Sintaxe do arquivo Python válida") himpLike
  have hWres := walkResult_fields td
    (add_info (add_info
      (add_info emptyResult ("Iniciando verificação para: " ++ tool_file_path td.name))
      "Analisando AST para erros de sintaxe e estrutura")
      "Sintaxe do arquivo Python válida")
  obtain ⟨hWe, hWw, hWc, hWt, hWi⟩ := hWres
  have hinspect := inspect_good (tool_file_path td.name)
    (walkResult td (add_info (add_info
      (add_info emptyResult ("Iniciando verificação para: " ++ tool_file_path td.name))
      "Analisando AST para erros de sintaxe e estrutura")
      "Sintaxe do arquivo Python válida")) dyn
    (cleanName td.name ++ "Tool") hWc hspec hexec hcf hrc
  obtain ⟨hIe, hIw, hIc, hIt, hIi⟩ :=
    inspectResult_fields (tool_file_path td.name)
      (walkResult td (add_info (add_info
        (add_info emptyResult ("Iniciando verificação para: " ++ tool_file_path td.name))
        "Analisando AST para erros de sintaxe e estrutura")
        "Sintaxe do arquivo Python válida")) (cleanName td.name ++ "Tool")
  have hinstance := instance_good
    (inspectResult (tool_file_path td.name)
      (walkResult td (add_info (add_info
        (add_info emptyResult ("Iniciando verificação para: " ++ tool_file_path td.name))
        "Analisando AST para erros de sintaxe e estrutura")
        "Sintaxe do arquivo Python válida")) (cleanName td.name ++ "Tool")) i
    hIt hn hd ha hm
  obtain ⟨hNe, hNw, hNi⟩ := instanceResult_fields
    (inspectResult (tool_file_path td.name)
      (walkResult td (add_info (add_info
        (add_info emptyResult ("Iniciando verificação para: " ++ tool_file_path td.name))
        "Analisando AST para erros de sintaxe e estrutura")
        "Sintaxe do arquivo Python válida")) (cleanName td.name ++ "Tool")) i
  have hSe : (verify_args_schema
      (instanceResult
        (inspectResult (tool_file_path td.name)
          (walkResult td (add_info (add_info
            (add_info emptyResult ("Iniciando verificação para: " ++ tool_file_path td.name))
            "Analisando AST para erros de sintaxe e estrutura")
            "Sintaxe do arquivo Python válida")) (cleanName td.name ++ "Tool")) i)
      i (Except.ok sb)).errors = [] := by
    rw [schema_good_errors _ i sb ha hm, hNe, hIe, hWe]
    rfl
  have hboth : (verifier_run (tool_file_path td.name) true true
        (ArtifactView.parses (buildToolModule td)) dyn).erros = [] ∧
      (verifier_run (tool_file_path td.name) true true
        (ArtifactView.parses (buildToolModule td)) dyn).sucesso = true := by
    unfold verifier_run
    simp only [hwalk, hinspect, hIt, hinstance, hNi, hinst, hsj, if_true]
    rw [if_neg (by simp : ¬ (true = false)), if_neg (by simp : ¬ (true = false))]
    exact final_tail_result _ _ hSe
  refine ⟨?_, ?_, hsuffix, ?_, hboth.1, hboth.2⟩
  · rw [hrunC]
  · rw [hrunC]
    show fileExists (if fileExists (writeFile (mkdirP fs (tools_dir_path td.name))
        (tool_file_path td.name)) (tools_dir_path td.name ++ "/__init__.py") then _
      else _) (tool_file_path td.name) = true
    split
    · exact writeFile_mem_self _ _
    · exact writeFile_mem_mono _ _ _ (writeFile_mem_self _ _)
  · intro flLines flLn flMsg
    unfold synthParseView
    rw [if_pos hparse]

/-- A specification that is valid in C1's sense (its one fragment parses, it
has no auxiliary methods) but whose name contains a hyphen. -/
def c1Spec : ToolDefn :=
  ⟨"Log-Analyzer", "analisa logs", [], implOkFragment, [], []⟩

/-- A runtime in which every dynamic stage would succeed. -/
def dynPerfect : DynOracle :=
  ⟨true, Option.none, true, true,
   Except.ok ⟨true, "Log-Analyzer", true, true, true, "P"⟩,
   Except.ok ⟨true⟩⟩

/-- The class-header line of the emitted source for `c1Spec`. -/
def c1FailLines : List String := ["class Log-AnalyzerTool(BaseTool):"]

/-- C1: the valid spec named "Log-Analyzer" synthesizes and writes an
artifact whose class header `class Log-AnalyzerTool(BaseTool):` is not a
valid identifier, so the written source cannot re-parse and verification
fails at the static parse stage — even on a perfectly behaved runtime —
refuting the round-trip claim. -/
theorem C1_counterexample :
    verificar_metodos_vazios c1Spec.custom_methods = [] ∧
    c1Spec.implementation.isParsedB = true ∧
    (creator_run emptyFs c1Spec).2 =
      CreatorRes.wrote (tool_file_path "Log-Analyzer") (buildToolModule c1Spec) ∧
    isPyIdent (cleanName c1Spec.name ++ "Tool") = false ∧
    generatedSourceParses c1Spec = false ∧
    (verifier_run (tool_file_path "Log-Analyzer") true true
      (synthParseView c1Spec c1FailLines 1 "invalid syntax") dynPerfect).sucesso
      = false := by
  refine ⟨rfl, rfl, rfl, by decide, by decide, by decide⟩

/-- A valid spec whose derived identifiers are valid. -/
def c1Good : ToolDefn := ⟨"LogDemo", "demonstração", [], implOkFragment, [], []⟩

def instGood : InstInfo := ⟨true, "LogDemo", true, true, true, "LogDemoParameters"⟩

def dynGood : DynOracle :=
  ⟨true, Option.none, true, true, Except.ok instGood, Except.ok ⟨true⟩⟩

/-- Witness for C1_thm at the concrete valid spec "LogDemo" on a
well-behaved runtime. -/
theorem C1_witness :
    generatedSourceParses c1Good = true ∧
    (creator_run emptyFs c1Good).2 =
      CreatorRes.wrote (tool_file_path "LogDemo") (buildToolModule c1Good) ∧
    (verifier_run (tool_file_path "LogDemo") true true
      (ArtifactView.parses (buildToolModule c1Good)) dynGood).sucesso = true :=
  ⟨by decide,
   (C1_thm emptyFs c1Good dynGood instGood ⟨true⟩ rfl rfl rfl rfl (by decide)
      (by intro f hf; cases hf) rfl rfl rfl rfl rfl rfl rfl rfl rfl rfl).1,
   (C1_thm emptyFs c1Good dynGood instGood ⟨true⟩ rfl rfl rfl rfl (by decide)
      (by intro f hf; cases hf) rfl rfl rfl rfl rfl rfl rfl rfl rfl rfl).2.2.2.2.2⟩

end Pdca
